import Mathlib

/-!
# auth-otp: the OTP issuance and verification protocol of the Auth service

A shallow embedding of `microservices/auth/internal` (domain, application and
the Postgres repositories), of the RabbitMQ publisher and consumer loop, and
of `microservices/otp/internal` (the event decoder and the dispatcher).

* The three tables (`users`, `otps`, `activities`) are lists of rows, in
  insertion order; each repository method is the SQL statement it executes.
  No uniqueness constraint is declared anywhere in the sources, so `INSERT`
  appends a row unconditionally.
* The broker is the list of messages published so far.
* A repository, broker or random-source call can fail with a driver error:
  `Env` says, for one orchestrator call, which of them fail.  A failed
  statement leaves the tables as they were.
* `time.Now()` is the next reading of `Env.clock`; `World.ticks` counts the
  readings taken so far.  Instants are integers (nanoseconds).
-/

namespace AuthOtp

/-! ## domain/domain.go -/

/-- An instant (`time.Time`), in nanoseconds. -/
abbrev Time := Int

/-- A byte. -/
abbrev Byte := Fin 256

/-- The sentinel errors of `domain.go`, and `external` for every error that
comes from a driver (database, broker, random source). -/
inductive Error where
  | ErrUserNotFound
  | ErrOTPNotFound
  | ErrOTPExpired
  | ErrInvalidOTP
  | ErrUserAlreadyExists
  | ErrUserNotVerified
  | ErrUserAlreadyVerified
  | external (detail : String)
  deriving DecidableEq, Repr

structure User where
  PhoneNumber : String
  Verified : Bool
  CreatedAt : Time
  UpdatedAt : Time
  deriving DecidableEq, Repr

structure OTP where
  PhoneNumber : String
  Code : String
  Expiration : Time
  deriving DecidableEq, Repr

inductive ActivityType where
  | ActivityLogin
  | ActivityLogout
  | ActivitySignup
  | ActivityVerify
  | ActivityUpdate
  | ActivityDelete
  deriving DecidableEq, Repr

structure Activity where
  PhoneNumber : String
  Type_ : ActivityType
  Timestamp : Time
  deriving DecidableEq, Repr

structure OTPVerificationEvent where
  PhoneNumber : String
  OTPCode : String
  deriving DecidableEq, Repr

/-- A message handed to the broker: the queue it goes to and its body. -/
structure Message where
  topic : String
  body : String
  deriving DecidableEq, Repr

/-! ## The world the service runs in -/

/-- Tables, broker and the number of clock readings taken so far. -/
structure World where
  users : List User
  otps : List OTP
  activities : List Activity
  published : List Message
  ticks : Nat
  deriving DecidableEq, Repr

/-- What the collaborators do during one orchestrator call: for each
repository, broker and random-source method the driver error it fails with
(`none`: the call goes through), the bytes of the random source, and the
clock. -/
structure Env where
  getUserErr : Option String
  addUserErr : Option String
  updateUserErr : Option String
  storeOTPErr : Option String
  getOTPErr : Option String
  deleteOTPErr : Option String
  recordActivityErr : Option String
  publishErr : Option String
  randErr : Option String
  randBytes : Nat → Byte
  clock : Nat → Time

/-- The outcome of a call: what it returns, and the world it leaves. -/
abbrev Outcome (α : Type) := Except Error α × World

/-- Reads the clock (`time.Now()`). -/
def timeNow (env : Env) (w : World) : Time × World :=
  (env.clock w.ticks, { w with ticks := w.ticks + 1 })

/-- The constructor `NewUser`: `time.Now()` is read for `CreatedAt`, then for `UpdatedAt`. -/
def NewUser (env : Env) (phoneNumber : String) (w : World) : User × World :=
  let (created, w1) := timeNow env w
  let (updated, w2) := timeNow env w1
  ({ PhoneNumber := phoneNumber, Verified := false, CreatedAt := created, UpdatedAt := updated }, w2)

/-- The method `(*User).Verify`. -/
def User.Verify (env : Env) (u : User) (w : World) : User × World :=
  let (t, w1) := timeNow env w
  ({ u with Verified := true, UpdatedAt := t }, w1)

/-- The method `(*User).IsVerified`. -/
def User.IsVerified (u : User) : Bool := u.Verified

/-! ### `json.Marshal` of an `OTPVerificationEvent` -/

/-- The table `"0123456789abcdef"`. -/
def hextable : List Char := "0123456789abcdef".toList

/-- One character of `hextable`. -/
def hexDigit (n : Nat) : Char := hextable.getD n '0'

/-- The escape `encoding/json` writes for one character of a string (HTML
escaping on, as `json.Marshal` has it; backspace and form feed as Go 1.22
writes them). -/
def jsonEscapeChar (c : Char) : List Char :=
  let bs := Char.ofNat 92
  if c = Char.ofNat 34 ∨ c = bs then [bs, c]
  else if c = Char.ofNat 8 then [bs, 'b']
  else if c = Char.ofNat 12 then [bs, 'f']
  else if c = Char.ofNat 10 then [bs, 'n']
  else if c = Char.ofNat 13 then [bs, 'r']
  else if c = Char.ofNat 9 then [bs, 't']
  else if c.toNat < 32 ∨ c = '<' ∨ c = '>' ∨ c = '&' then
    [bs, 'u', '0', '0', hexDigit (c.toNat / 16), hexDigit (c.toNat % 16)]
  else if c.toNat = 8232 ∨ c.toNat = 8233 then
    [bs, 'u', '2', '0', '2', hexDigit (c.toNat % 16)]
  else [c]

/-- A JSON string literal. -/
def jsonString (s : String) : List Char :=
  [Char.ofNat 34] ++ s.toList.flatMap jsonEscapeChar ++ [Char.ofNat 34]

/-- The text `json.Marshal` writes for an `OTPVerificationEvent`: an object of
the two string fields, tagged `phoneNumber` and `otpCode`, in declaration
order. -/
def jsonMarshal (e : OTPVerificationEvent) : String :=
  String.mk ("\x7b\"phoneNumber\":".toList ++ jsonString e.PhoneNumber
    ++ ",\"otpCode\":".toList ++ jsonString e.OTPCode ++ "\x7d".toList)

/-- The method `(*OTPVerificationEvent).Serialize`; marshalling a struct of
two strings cannot fail. -/
def OTPVerificationEvent.Serialize (e : OTPVerificationEvent) : Except Error String :=
  .ok (jsonMarshal e)

/-! ## infrastrucutre: the Postgres repositories -/

/-- `SELECT ... FROM users WHERE phone_number = $1`, first row. -/
def GetUser (env : Env) (phoneNumber : String) (w : World) : Outcome User :=
  match env.getUserErr with
  | some d => (.error (.external d), w)
  | none =>
    match w.users.find? (fun u => u.PhoneNumber == phoneNumber) with
    | none => (.error .ErrUserNotFound, w)
    | some u => (.ok u, w)

/-- `INSERT INTO users ...`. -/
def AddUser (env : Env) (user : User) (w : World) : Outcome Unit :=
  match env.addUserErr with
  | some d => (.error (.external d), w)
  | none => (.ok (), { w with users := w.users ++ [user] })

/-- `UPDATE users SET verified = $1, updated_at = $2 WHERE phone_number = $3`. -/
def UpdateUser (env : Env) (user : User) (w : World) : Outcome Unit :=
  match env.updateUserErr with
  | some d => (.error (.external d), w)
  | none =>
    (.ok (), { w with users := w.users.map fun u =>
      if u.PhoneNumber == user.PhoneNumber then
        { u with Verified := user.Verified, UpdatedAt := user.UpdatedAt }
      else u })

/-- `INSERT INTO otps (phone_number, code, expiration) ...`. -/
def StoreOTP (env : Env) (phoneNumber otp : String) (expiration : Time) (w : World) :
    Outcome Unit :=
  match env.storeOTPErr with
  | some d => (.error (.external d), w)
  | none =>
    (.ok (), { w with otps := w.otps ++
      [{ PhoneNumber := phoneNumber, Code := otp, Expiration := expiration }] })

/-- `SELECT code, expiration FROM otps WHERE phone_number = $1`, first row. -/
def GetOTP (env : Env) (phoneNumber : String) (w : World) : Outcome (String × Time) :=
  match env.getOTPErr with
  | some d => (.error (.external d), w)
  | none =>
    match w.otps.find? (fun o => o.PhoneNumber == phoneNumber) with
    | none => (.error .ErrOTPNotFound, w)
    | some o => (.ok (o.Code, o.Expiration), w)

/-- `DELETE FROM otps WHERE phone_number = $1`. -/
def DeleteOTP (env : Env) (phoneNumber : String) (w : World) : Outcome Unit :=
  match env.deleteOTPErr with
  | some d => (.error (.external d), w)
  | none =>
    (.ok (), { w with otps := w.otps.filter fun o => !(o.PhoneNumber == phoneNumber) })

/-- `INSERT INTO activities (phone_number, type, timestamp) ...`. -/
def RecordActivity (env : Env) (activity : Activity) (w : World) : Outcome Unit :=
  match env.recordActivityErr with
  | some d => (.error (.external d), w)
  | none => (.ok (), { w with activities := w.activities ++ [activity] })

/-! ## sdk/rabbitmq -/

/-- The method `(*RabbitMQBroker).Publish`: declares the queue and publishes the body to it. -/
def Publish (env : Env) (topic : String) (message : String) (w : World) : Outcome Unit :=
  match env.publishErr with
  | some d => (.error (.external d), w)
  | none => (.ok (), { w with published := w.published ++ [{ topic := topic, body := message }] })

/-! ## application/application.go -/

/-- The constant `otpValidityDuration = 5 * time.Minute`, in nanoseconds. -/
def otpValidityDuration : Int := 5 * (60 * 1000000000)

/-- The call `rand.Read(b)` for a slice of `n` bytes. -/
def randRead (env : Env) (n : Nat) : Except Error (List Byte) :=
  match env.randErr with
  | some d => .error (.external d)
  | none => .ok ((List.range n).map env.randBytes)

/-- The function `hex.EncodeToString`: two characters of `hextable` per byte, high nibble first. -/
def EncodeToString (src : List Byte) : String :=
  String.mk (src.flatMap fun v => [hexDigit (v.val / 16), hexDigit (v.val % 16)])

def generateOTP (env : Env) : Except Error String :=
  match randRead env 4 with
  | .error err => .error err
  | .ok b => .ok (EncodeToString b)

def publishSendOTPEvent (env : Env) (phoneNumber otpCode : String) (w : World) : Outcome Unit :=
  let event : OTPVerificationEvent := { PhoneNumber := phoneNumber, OTPCode := otpCode }
  match event.Serialize with
  | .error err => (.error err, w)
  | .ok message =>
    match Publish env "verification" message w with
    | (.error err, w1) => (.error err, w1)
    | (.ok _, w1) => (.ok (), w1)

def requestNewOTP (env : Env) (phoneNumber : String) (w : World) : Outcome Unit :=
  let issue : World → Outcome Unit := fun w1 =>
    match generateOTP env with
    | .error err => (.error err, w1)
    | .ok otpCode =>
      let (now, w2) := timeNow env w1
      let expiration := now + otpValidityDuration
      match StoreOTP env phoneNumber otpCode expiration w2 with
      | (.error err, w3) => (.error err, w3)
      | (.ok _, w3) =>
        match publishSendOTPEvent env phoneNumber otpCode w3 with
        | (.error err, w4) => (.error err, w4)
        | (.ok _, w4) => (.ok (), w4)
  match DeleteOTP env phoneNumber w with
  | (.error err, w1) => if err ≠ .ErrOTPNotFound then (.error err, w1) else issue w1
  | (.ok _, w1) => issue w1

def SignUpWithPhoneNumber (env : Env) (phoneNumber : String) (w : World) : Outcome Unit :=
  match GetUser env phoneNumber w with
  | (.ok _, w1) => (.error .ErrUserAlreadyExists, w1)
  | (.error err, w1) =>
    if err ≠ .ErrUserNotFound then (.error err, w1)
    else
      let (user, w2) := NewUser env phoneNumber w1
      match AddUser env user w2 with
      | (.error err, w3) => (.error err, w3)
      | (.ok _, w3) =>
        match requestNewOTP env phoneNumber w3 with
        | (.error err, w4) => (.error err, w4)
        | (.ok _, w4) =>
          let (now, w5) := timeNow env w4
          let activity : Activity :=
            { PhoneNumber := phoneNumber, Type_ := .ActivitySignup, Timestamp := now }
          match RecordActivity env activity w5 with
          | (.error err, w6) => (.error err, w6)
          | (.ok _, w6) => (.ok (), w6)

def VerifyPhoneNumber (env : Env) (phoneNumber otp : String) (w : World) : Outcome Unit :=
  match GetOTP env phoneNumber w with
  | (.error err, w1) => (.error err, w1)
  | (.ok (storedOTP, expiration), w1) =>
    let (now, w2) := timeNow env w1
    if now > expiration then (.error .ErrOTPExpired, w2)
    else if storedOTP ≠ otp then (.error .ErrInvalidOTP, w2)
    else
      match GetUser env phoneNumber w2 with
      | (.error err, w3) => (.error err, w3)
      | (.ok user, w3) =>
        let (user, w4) := user.Verify env w3
        match UpdateUser env user w4 with
        | (.error err, w5) => (.error err, w5)
        | (.ok _, w5) =>
          match DeleteOTP env phoneNumber w5 with
          | (.error err, w6) => (.error err, w6)
          | (.ok _, w6) =>
            let (now, w7) := timeNow env w6
            let activity : Activity :=
              { PhoneNumber := phoneNumber, Type_ := .ActivityVerify, Timestamp := now }
            match RecordActivity env activity w7 with
            | (.error err, w8) => (.error err, w8)
            | (.ok _, w8) => (.ok (), w8)

def LoginInitiate (env : Env) (phoneNumber : String) (w : World) : Outcome Unit :=
  match GetUser env phoneNumber w with
  | (.error _, w1) => (.error .ErrUserNotFound, w1)
  | (.ok user, w1) =>
    if !user.IsVerified then (.error .ErrUserNotVerified, w1)
    else
      match requestNewOTP env phoneNumber w1 with
      | (.error err, w2) => (.error err, w2)
      | (.ok _, w2) =>
        let (now, w3) := timeNow env w2
        let activity : Activity :=
          { PhoneNumber := phoneNumber, Type_ := .ActivityLogin, Timestamp := now }
        match RecordActivity env activity w3 with
        | (.error err, w4) => (.error err, w4)
        | (.ok _, w4) => (.ok (), w4)

def ValidatePhoneNumberLogin (env : Env) (phoneNumber otp : String) (w : World) : Outcome Unit :=
  match GetOTP env phoneNumber w with
  | (.error err, w1) => (.error err, w1)
  | (.ok (storedOTP, expiration), w1) =>
    let (now, w2) := timeNow env w1
    if now > expiration then (.error .ErrOTPExpired, w2)
    else if storedOTP ≠ otp then (.error .ErrInvalidOTP, w2)
    else
      match GetUser env phoneNumber w2 with
      | (.error err, w3) => (.error err, w3)
      | (.ok user, w3) =>
        if !user.IsVerified then (.error .ErrUserNotVerified, w3)
        else
          match DeleteOTP env phoneNumber w3 with
          | (.error err, w4) => (.error err, w4)
          | (.ok _, w4) =>
            let (now, w5) := timeNow env w4
            let activity : Activity :=
              { PhoneNumber := phoneNumber, Type_ := .ActivityLogin, Timestamp := now }
            match RecordActivity env activity w5 with
            | (.error err, w6) => (.error err, w6)
            | (.ok _, w6) => (.ok (), w6)

def GetProfile (env : Env) (phoneNumber : String) (w : World) : Outcome User :=
  match GetUser env phoneNumber w with
  | (.error err, w1) => (.error err, w1)
  | (.ok user, w1) =>
    let (now, w2) := timeNow env w1
    let activity : Activity :=
      { PhoneNumber := phoneNumber, Type_ := .ActivityUpdate, Timestamp := now }
    match RecordActivity env activity w2 with
    | (.error err, w3) => (.error err, w3)
    | (.ok _, w3) => (.ok user, w3)

/-- Every repository, broker and random-source call of the environment goes through. -/
def Env.allSucceed (env : Env) : Prop :=
  env.getUserErr = none ∧ env.addUserErr = none ∧ env.updateUserErr = none ∧
  env.storeOTPErr = none ∧ env.getOTPErr = none ∧ env.deleteOTPErr = none ∧
  env.recordActivityErr = none ∧ env.publishErr = none ∧ env.randErr = none

instance (env : Env) : Decidable env.allSucceed := by
  unfold Env.allSucceed; infer_instance

/-- An environment in which nothing fails: the random source gives zero
bytes and the clock stands at `t`. -/
def calmEnv (t : Time) : Env :=
  { getUserErr := none, addUserErr := none, updateUserErr := none, storeOTPErr := none,
    getOTPErr := none, deleteOTPErr := none, recordActivityErr := none, publishErr := none,
    randErr := none, randBytes := fun _ => 0, clock := fun _ => t }

/-- The empty world. -/
def World.empty : World :=
  { users := [], otps := [], activities := [], published := [], ticks := 0 }

/-! ## Vocabulary of the statements -/

/-- The code an issuance draws from the random source of `env`. -/
def drawnCode (env : Env) : String := EncodeToString ((List.range 4).map env.randBytes)

/-- The rows of the `otps` table for a phone number. -/
def otpsOf (w : World) (p : String) : List OTP := w.otps.filter fun o => o.PhoneNumber == p

/-- The rows of the `users` table for a phone number. -/
def usersOf (w : World) (p : String) : List User := w.users.filter fun u => u.PhoneNumber == p

/-- The body of the issuance event for a phone number and a code. -/
def eventBody (p code : String) : String := jsonMarshal ⟨p, code⟩

/-- The `users` table after `UPDATE users SET verified = true, updated_at = t` for `p`. -/
def markVerified (users : List User) (p : String) (t : Time) : List User :=
  users.map fun u => if u.PhoneNumber == p then { u with Verified := true, UpdatedAt := t } else u

/-- An unverified user and a pending code for one phone number. -/
def pendingWorld : World :=
  { users := [⟨"+15551234", false, 1, 1⟩], otps := [⟨"+15551234", "0a1b2c3d", 100⟩],
    activities := [⟨"+15551234", .ActivitySignup, 1⟩],
    published := [⟨"verification", eventBody "+15551234" "0a1b2c3d"⟩], ticks := 4 }

/-- A verified user with no pending code. -/
def verifiedWorld : World :=
  { users := [⟨"+15551234", true, 1, 2⟩], otps := [],
    activities := [⟨"+15551234", .ActivitySignup, 1⟩, ⟨"+15551234", .ActivityVerify, 2⟩],
    published := [], ticks := 7 }

/-- The world after one sign-up for `+15551234` at instant 5. -/
def signedUpWorld : World := (SignUpWithPhoneNumber (calmEnv 5) "+15551234" World.empty).2

/-- The world after two issuances in a row for the verified user of
`verifiedWorld`, at instants 5 and 6, the random source giving the same four
bytes both times. -/
def reissuedWorld : World :=
  (requestNewOTP (calmEnv 6) "+15551234" (requestNewOTP (calmEnv 5) "+15551234" verifiedWorld).2).2

/-- An environment in which only `StoreOTP` fails. -/
def storeDownEnv : Env := { calmEnv 5 with storeOTPErr := some "otps: connection refused" }

/-- An environment in which only `Publish` fails. -/
def brokerDownEnv : Env := { calmEnv 5 with publishErr := some "amqp: channel closed" }

/-- An environment in which nothing fails and the random source gives bytes
`0x01`; the clock stands at 6. -/
def calmEnvOnes : Env := { calmEnv 6 with randBytes := fun _ => 1 }

/-- A call of the request surface of the orchestrator. -/
inductive Call where
  | signUp (phoneNumber : String)
  | verify (phoneNumber otp : String)
  | loginInitiate (phoneNumber : String)
  | validateLogin (phoneNumber otp : String)
  | getProfile (phoneNumber : String)
  deriving DecidableEq, Repr

/-- The world a call leaves, whatever it returns. -/
def Call.run (env : Env) : Call → World → World
  | .signUp p, w => (SignUpWithPhoneNumber env p w).2
  | .verify p otp, w => (VerifyPhoneNumber env p otp w).2
  | .loginInitiate p, w => (LoginInitiate env p w).2
  | .validateLogin p otp, w => (ValidatePhoneNumberLogin env p otp w).2
  | .getProfile p, w => (GetProfile env p w).2

/-- The worlds the service can be in: it starts with empty tables, and every
call, in whatever environment and with whatever outcome, leads to the next. -/
inductive Reachable : World → Prop where
  | init : Reachable World.empty
  | step {w : World} (env : Env) (c : Call) : Reachable w → Reachable (c.run env w)

/-- Every OTP row belongs to a phone number that has a User row. -/
def OtpsHaveUsers (w : World) : Prop :=
  ∀ o ∈ w.otps, ∃ u ∈ w.users, u.PhoneNumber = o.PhoneNumber

/-- From `w` to `w2` no phone number loses its User rows, and every OTP row
of `w2` that `w` does not have belongs to a phone number with a User row. -/
def Extends (w w2 : World) : Prop :=
  (∀ u ∈ w.users, ∃ u2 ∈ w2.users, u2.PhoneNumber = u.PhoneNumber) ∧
  (∀ o ∈ w2.otps, o ∈ w.otps ∨ ∃ u ∈ w2.users, u.PhoneNumber = o.PhoneNumber)

/-- What a call on phone number `p` can do to the `users` and `otps` tables:
the users are untouched, or gain one row for `p`, or have the rows of `p`
marked verified; the OTP rows are untouched, or lose the rows of `p`, or have
the rows of `p` replaced by one new row, `p` having a User row then. -/
def Shape (p : String) (w w2 : World) : Prop :=
  (w2.users = w.users ∨ (∃ u : User, u.PhoneNumber = p ∧ w2.users = w.users ++ [u]) ∨
    ∃ t : Time, w2.users = markVerified w.users p t) ∧
  (w2.otps = w.otps ∨ w2.otps = (w.otps.filter fun o => !(o.PhoneNumber == p)) ∨
    ∃ o : OTP, o.PhoneNumber = p ∧ (∃ u ∈ w2.users, u.PhoneNumber = p) ∧
      w2.otps = (w.otps.filter fun o => !(o.PhoneNumber == p)) ++ [o])

/-- The phone number a call is about. -/
def Call.phone : Call → String
  | .signUp p => p
  | .verify p _ => p
  | .loginInitiate p => p
  | .validateLogin p _ => p
  | .getProfile p => p

/-- The pending code of `pendingWorld`, with the user already verified. -/
def loginPendingWorld : World :=
  { pendingWorld with users := [⟨"+15551234", true, 1, 2⟩] }

/-- The world after a login initiation at instant 5 for the verified user of `verifiedWorld`. -/
def loginStartedWorld : World := (LoginInitiate (calmEnv 5) "+15551234" verifiedWorld).2

/-- An environment in which only the `users` lookup fails. -/
def usersDownEnv : Env := { calmEnv 5 with getUserErr := some "users: connection refused" }

/-- An environment in which only the `otps` delete fails; the clock stands at 50. -/
def deleteDownEnv : Env := { calmEnv 50 with deleteOTPErr := some "otps: connection refused" }

/-- An environment in which only the activity append fails; the clock stands at 50. -/
def activityDownEnv : Env :=
  { calmEnv 50 with recordActivityErr := some "activities: connection refused" }

/-- The lowercase hexadecimal digit of a value below 16: `0` to `9`, then `a` to `f`. -/
def lowerHexDigit (d : Nat) : Char := if d < 10 then Char.ofNat (48 + d) else Char.ofNat (87 + d)

/-- The lowercase hexadecimal encoding of a byte sequence: two digits per
byte, the high nibble first. -/
def lowerHex (bs : List Byte) : List Char :=
  bs.flatMap fun b => [lowerHexDigit (b.val / 16), lowerHexDigit (b.val % 16)]

/-! ## otp/internal/domain: `json.Unmarshal` into an `OTPVerificationEvent`

The decoder of `encoding/json` as one pass over the text of the payload: the
scanner's step functions, with the stores of the struct decoder done at the
character where the value starts or ends.  The payload is its text, a byte
that is not part of a well-formed UTF-8 sequence being read as U+FFFD, which
is what `encoding/json` makes of it inside a string and rejects outside one,
as it does U+FFFD itself. -/

/-- The two ways `json.Unmarshal` fails: the input is not one JSON value (a
`SyntaxError`), or a value cannot be stored where it belongs (an
`UnmarshalTypeError`). -/
inductive JsonError where
  | malformed
  | wrongType
  deriving DecidableEq, Repr

/-- What the scanner is inside of (`parseState`). -/
inductive Frame where
  | parseObjectKey
  | parseObjectValue
  | parseArrayValue
  deriving DecidableEq, Repr

/-- The step function the scanner is at.  Inside a string it carries the
characters decoded so far, a `\u` escape read as a high surrogate that still
waits for its pair, and the hexadecimal digits of the escape being read. -/
inductive Mode where
  | beginValue
  | beginValueOrEmpty
  | beginString
  | beginStringOrEmpty
  | inString (acc : List Char) (pending : Option Nat)
  | inStringEsc (acc : List Char) (pending : Option Nat)
  | inStringEscU (acc : List Char) (pending : Option Nat) (digits : List Nat)
  | endValue
  | endTop
  | neg
  | zero
  | digits
  | dot
  | dot0
  | exp
  | expSign
  | exp0
  | literal (rest : List Char)
  | error
  deriving DecidableEq, Repr

/-- A field of the struct `OTPVerificationEvent`. -/
inductive Field where
  | PhoneNumber
  | OTPCode
  deriving DecidableEq, Repr

/-- The decoder at one point of the input: the scanner (`mode`, `stack`), the
keys of the top-level object read so far, the struct being filled, and
whether a type error has been saved (`d.savedError`). -/
structure Scan where
  mode : Mode
  stack : List Frame
  keys : List String
  event : OTPVerificationEvent
  mismatch : Bool
  deriving DecidableEq, Repr

/-- The characters `"`, `\`, `{`, `}` and U+FFFD. -/
def quoteChar : Char := Char.ofNat 34
def backslashChar : Char := Char.ofNat 92
def openBrace : Char := Char.ofNat 123
def closeBrace : Char := Char.ofNat 125
def replacementChar : Char := Char.ofNat 65533

/-- The constant `maxNestingDepth` of the scanner. -/
def maxNestingDepth : Nat := 10000

/-- The function `isSpace` of the scanner. -/
def isSpace (c : Char) : Bool :=
  c = ' ' || c = Char.ofNat 9 || c = Char.ofNat 13 || c = Char.ofNat 10

def isDigit (c : Char) : Bool := 48 ≤ c.toNat && c.toNat ≤ 57

def isDigit19 (c : Char) : Bool := 49 ≤ c.toNat && c.toNat ≤ 57

/-- The value of a hexadecimal digit, in either case. -/
def hexVal (c : Char) : Option Nat :=
  if 48 ≤ c.toNat ∧ c.toNat ≤ 57 then some (c.toNat - 48)
  else if 97 ≤ c.toNat ∧ c.toNat ≤ 102 then some (c.toNat - 87)
  else if 65 ≤ c.toNat ∧ c.toNat ≤ 70 then some (c.toNat - 55)
  else none

/-- The folding of a field name or key (`foldName`): ASCII letters to upper
case.  The other characters that Unicode folds onto an ASCII letter fold onto
`K` or `S`, which no field name of the event has, so leaving them as they are
changes no match. -/
def foldName (s : String) : List Char :=
  s.toList.map fun c => if 97 ≤ c.toNat ∧ c.toNat ≤ 122 then Char.ofNat (c.toNat - 32) else c

/-- The field a key of the object names: by its exact tag, else by folded tag. -/
def fieldOf (key : String) : Option Field :=
  if key = "phoneNumber" then some .PhoneNumber
  else if key = "otpCode" then some .OTPCode
  else if foldName key = foldName "phoneNumber" then some .PhoneNumber
  else if foldName key = foldName "otpCode" then some .OTPCode
  else none

/-- Where the value that starts or ends here goes. -/
inductive Target where
  | top
  | field (f : Field)
  | skip
  deriving DecidableEq, Repr

def Scan.target (s : Scan) : Target :=
  match s.stack with
  | [] => .top
  | [.parseObjectValue] =>
    match s.keys.getLast? with
    | none => .skip
    | some k =>
      match fieldOf k with
      | some f => .field f
      | none => .skip
  | _ => .skip

def Scan.fail (s : Scan) : Scan := { s with mode := .error }

/-- A value that is not a string and not `null` starts: an object is what the
struct wants, anything else at the top or in a field is a type error. -/
def Scan.noteValue (s : Scan) (isObject : Bool) : Scan :=
  match s.target with
  | .top => if isObject then s else { s with mismatch := true }
  | .field _ => { s with mismatch := true }
  | .skip => s

/-- A string ends: a key of the top-level object is recorded, a value is stored in its field. -/
def Scan.noteString (s : Scan) (str : String) : Scan :=
  match s.stack with
  | [.parseObjectKey] => { s with keys := s.keys ++ [str] }
  | _ =>
    match s.target with
    | .top => { s with mismatch := true }
    | .field .PhoneNumber => { s with event := { s.event with PhoneNumber := str } }
    | .field .OTPCode => { s with event := { s.event with OTPCode := str } }
    | .skip => s

def stateEndTop (s : Scan) (c : Char) : Scan :=
  if isSpace c then { s with mode := .endTop } else s.fail

def Scan.pop (s : Scan) (rest : List Frame) : Scan :=
  { s with stack := rest, mode := if rest = [] then .endTop else .endValue }

def stateEndValue (s : Scan) (c : Char) : Scan :=
  match s.stack with
  | [] => stateEndTop s c
  | top :: rest =>
    if isSpace c then { s with mode := .endValue }
    else
      match top with
      | .parseObjectKey =>
        if c = ':' then { s with stack := .parseObjectValue :: rest, mode := .beginValue }
        else s.fail
      | .parseObjectValue =>
        if c = ',' then { s with stack := .parseObjectKey :: rest, mode := .beginString }
        else if c = closeBrace then s.pop rest
        else s.fail
      | .parseArrayValue =>
        if c = ',' then { s with mode := .beginValue }
        else if c = ']' then s.pop rest
        else s.fail

def Scan.push (s : Scan) (f : Frame) (m : Mode) : Scan :=
  if s.stack.length + 1 ≤ maxNestingDepth then { s with stack := f :: s.stack, mode := m }
  else s.fail

def stateBeginValue (s : Scan) (c : Char) : Scan :=
  if isSpace c then s
  else if c = openBrace then (s.noteValue true).push .parseObjectKey .beginStringOrEmpty
  else if c = '[' then (s.noteValue false).push .parseArrayValue .beginValueOrEmpty
  else if c = quoteChar then { s with mode := .inString [] none }
  else if c = '-' then { s.noteValue false with mode := .neg }
  else if c = '0' then { s.noteValue false with mode := .zero }
  else if c = 't' then { s.noteValue false with mode := .literal ['r', 'u', 'e'] }
  else if c = 'f' then { s.noteValue false with mode := .literal ['a', 'l', 's', 'e'] }
  else if c = 'n' then { s with mode := .literal ['u', 'l', 'l'] }
  else if isDigit19 c then { s.noteValue false with mode := .digits }
  else s.fail

def stateBeginValueOrEmpty (s : Scan) (c : Char) : Scan :=
  if isSpace c then s
  else if c = ']' then stateEndValue s c
  else stateBeginValue s c

def stateBeginString (s : Scan) (c : Char) : Scan :=
  if isSpace c then s
  else if c = quoteChar then { s with mode := .inString [] none }
  else s.fail

def stateBeginStringOrEmpty (s : Scan) (c : Char) : Scan :=
  if isSpace c then s
  else if c = closeBrace then
    stateEndValue { s with stack := .parseObjectValue :: s.stack.tail } c
  else stateBeginString s c

/-- The characters decoded so far, a surrogate that found no pair being read as U+FFFD. -/
def flush (acc : List Char) (pending : Option Nat) : List Char :=
  match pending with
  | some _ => acc ++ [replacementChar]
  | none => acc

def stateInString (s : Scan) (acc : List Char) (pending : Option Nat) (c : Char) : Scan :=
  if c = quoteChar then { s.noteString (String.mk (flush acc pending)) with mode := .endValue }
  else if c = backslashChar then { s with mode := .inStringEsc acc pending }
  else if c.toNat < 32 then s.fail
  else { s with mode := .inString (flush acc pending ++ [c]) none }

def stateInStringEsc (s : Scan) (acc : List Char) (pending : Option Nat) (c : Char) : Scan :=
  let plain := fun (d : Char) => { s with mode := .inString (flush acc pending ++ [d]) none }
  if c = 'b' then plain (Char.ofNat 8)
  else if c = 'f' then plain (Char.ofNat 12)
  else if c = 'n' then plain (Char.ofNat 10)
  else if c = 'r' then plain (Char.ofNat 13)
  else if c = 't' then plain (Char.ofNat 9)
  else if c = backslashChar ∨ c = '/' ∨ c = quoteChar then plain c
  else if c = 'u' then { s with mode := .inStringEscU acc pending [] }
  else s.fail

/-- The code unit of a `\u` escape that pairs with nothing before it. -/
def freshUnit (acc : List Char) (v : Nat) : Mode :=
  if 55296 ≤ v ∧ v < 56320 then .inString acc (some v)
  else if 56320 ≤ v ∧ v < 57344 then .inString (acc ++ [replacementChar]) none
  else .inString (acc ++ [Char.ofNat v]) none

def stateInStringEscU (s : Scan) (acc : List Char) (pending : Option Nat) (ds : List Nat)
    (c : Char) : Scan :=
  match hexVal c with
  | none => s.fail
  | some d =>
    if ds.length < 3 then { s with mode := .inStringEscU acc pending (ds ++ [d]) }
    else
      let v := (ds ++ [d]).foldl (fun n x => 16 * n + x) 0
      match pending with
      | some h =>
        if 56320 ≤ v ∧ v < 57344 then
          let pair := Char.ofNat (65536 + (h - 55296) * 1024 + (v - 56320))
          { s with mode := .inString (acc ++ [pair]) none }
        else { s with mode := freshUnit (acc ++ [replacementChar]) v }
      | none => { s with mode := freshUnit acc v }

def state0 (s : Scan) (c : Char) : Scan :=
  if c = '.' then { s with mode := .dot }
  else if c = 'e' ∨ c = 'E' then { s with mode := .exp }
  else stateEndValue s c

def stateESign (s : Scan) (c : Char) : Scan :=
  if isDigit c then { s with mode := .exp0 } else s.fail

/-- One character through the scanner and the decoder. -/
def step (s : Scan) (c : Char) : Scan :=
  match s.mode with
  | .beginValue => stateBeginValue s c
  | .beginValueOrEmpty => stateBeginValueOrEmpty s c
  | .beginString => stateBeginString s c
  | .beginStringOrEmpty => stateBeginStringOrEmpty s c
  | .inString acc pending => stateInString s acc pending c
  | .inStringEsc acc pending => stateInStringEsc s acc pending c
  | .inStringEscU acc pending ds => stateInStringEscU s acc pending ds c
  | .endValue => stateEndValue s c
  | .endTop => stateEndTop s c
  | .neg =>
    if c = '0' then { s with mode := .zero }
    else if isDigit19 c then { s with mode := .digits }
    else s.fail
  | .zero => state0 s c
  | .digits => if isDigit c then s else state0 s c
  | .dot => if isDigit c then { s with mode := .dot0 } else s.fail
  | .dot0 =>
    if isDigit c then s
    else if c = 'e' ∨ c = 'E' then { s with mode := .exp }
    else stateEndValue s c
  | .exp => if c = '+' ∨ c = '-' then { s with mode := .expSign } else stateESign s c
  | .expSign => stateESign s c
  | .exp0 => if isDigit c then s else stateEndValue s c
  | .literal rest =>
    match rest with
    | [] => s.fail
    | r :: rest =>
      if c = r then { s with mode := if rest = [] then .endValue else .literal rest }
      else s.fail
  | .error => s

/-- The decoder before the first character. -/
def Scan.start : Scan :=
  { mode := .beginValue, stack := [], keys := [], event := ⟨"", ""⟩, mismatch := false }

/-- The decoder after the whole input and the end of input (`scan.eof`). -/
def scanAll (data : String) : Scan := step (data.toList.foldl step Scan.start) ' '

/-- The call `json.Unmarshal(data, &event)` for an `OTPVerificationEvent`. -/
def Unmarshal (data : String) : Except JsonError OTPVerificationEvent :=
  let s := scanAll data
  if s.mode ≠ .endTop then .error .malformed
  else if s.mismatch then .error .wrongType
  else .ok s.event

/-- The function `DeserializeOTPEvent` of the OTP service. -/
def DeserializeOTPEvent (data : String) : Except JsonError OTPVerificationEvent :=
  match Unmarshal data with
  | .error err => .error err
  | .ok event => .ok event

/-! ## otp/internal/application and the consumer loop of sdk/rabbitmq -/

/-- A line the OTP service writes to its log. -/
inductive LogLine where
  | deserializeFailed (err : JsonError)
  | sendingOTP (phone code : String)
  | sendFailed (detail : String)
  | ackFailed (detail : String)
  deriving DecidableEq, Repr

/-- The OTP service as its collaborators see it: the calls of `SendOTP` made
so far, the number of calls of `Ack`, and the log. -/
structure Dispatch where
  sent : List (String × String)
  acks : Nat
  log : List LogLine
  deriving DecidableEq, Repr

/-- What the collaborators of the OTP service do for one delivery: the error
the delivery provider fails with, and the error `Ack` fails with. -/
structure Provider where
  sendErr : Option String
  ackErr : Option String

/-- The call `s.otpClient.SendOTP(ctx, phone, code)`. -/
def SendOTP (pv : Provider) (phone code : String) (d : Dispatch) : Except String Unit × Dispatch :=
  match pv.sendErr with
  | some err => (.error err, { d with sent := d.sent ++ [(phone, code)] })
  | none => (.ok (), { d with sent := d.sent ++ [(phone, code)] })

def handleOTPEvent (pv : Provider) (message : String) (d : Dispatch) : Dispatch :=
  match DeserializeOTPEvent message with
  | .error err => { d with log := d.log ++ [.deserializeFailed err] }
  | .ok event =>
    let d1 := { d with log := d.log ++ [.sendingOTP event.PhoneNumber event.OTPCode] }
    match SendOTP pv event.PhoneNumber event.OTPCode d1 with
    | (.error err, d2) => { d2 with log := d2.log ++ [.sendFailed err] }
    | (.ok _, d2) => d2

/-- One turn of the consumer loop of `Subscribe`, for one delivery: the
handler is run on the body, then the delivery is acknowledged. -/
def consumeOne (pv : Provider) (body : String) (d : Dispatch) : Dispatch :=
  let d1 := handleOTPEvent pv body d
  let d2 := { d1 with acks := d1.acks + 1 }
  match pv.ackErr with
  | some err => { d2 with log := d2.log ++ [.ackFailed err] }
  | none => d2

/-- The calls of the delivery provider a payload asks for: one for an event, none otherwise. -/
def providerCalls (message : String) : List (String × String) :=
  match DeserializeOTPEvent message with
  | .ok event => [(event.PhoneNumber, event.OTPCode)]
  | .error _ => []

/-- A delivery provider that fails; `Ack` goes through. -/
def failingProvider : Provider := { sendErr := some "twilio: 503", ackErr := none }

/-- The OTP service before any delivery. -/
def Dispatch.idle : Dispatch := { sent := [], acks := 0, log := [] }

/-- The payload of the issuance event of `+15551234` with code `0a1b2c3d`. -/
def samplePayload : String := "\x7b\"phoneNumber\":\"+15551234\",\"otpCode\":\"0a1b2c3d\"\x7d"

/-- No phone number has two OTP rows. -/
def AtMostOneOtp (w : World) : Prop := ∀ q : String, (otpsOf w q).length ≤ 1

/-- The world after a sequence of calls, each in its own environment. -/
def runCalls (steps : List (Env × Call)) (w : World) : World :=
  steps.foldl (fun w s => s.2.run s.1 w) w

/-- What a call on phone number `p` can do to the activity log and to the
broker: each is untouched or gains one entry, an activity record of `p`, a
message on topic `verification` whose body is an event of `p`. -/
def Trail (p : String) (w w2 : World) : Prop :=
  (w2.activities = w.activities ∨
    ∃ a : Activity, a.PhoneNumber = p ∧ w2.activities = w.activities ++ [a]) ∧
  (w2.published = w.published ∨
    ∃ code : String, w2.published = w.published ++ [⟨"verification", eventBody p code⟩])

/-- A message is an issuance event naming the phone number `q`: its body
decodes to an event with that phone number. -/
def namesPhone (m : Message) (q : String) : Prop :=
  ∃ e : OTPVerificationEvent, DeserializeOTPEvent m.body = .ok e ∧ e.PhoneNumber = q

/-- A sign-up, its verification, and two login initiations in a row for one phone number. -/
def sampleRun : List (Env × Call) :=
  [(calmEnv 5, .signUp "+15551234"), (calmEnv 9, .verify "+15551234" "00000000"),
   (calmEnv 20, .loginInitiate "+15551234"), (calmEnvOnes, .loginInitiate "+15551234")]

/-- The verified user of `verifiedWorld`, and a second phone number with an
unverified user and a pending code. -/
def twoPhonesWorld : World :=
  { users := [⟨"+15551234", true, 1, 2⟩, ⟨"+15550000", false, 3, 3⟩],
    otps := [⟨"+15550000", "0a1b2c3d", 100⟩],
    activities := [⟨"+15551234", .ActivitySignup, 1⟩, ⟨"+15551234", .ActivityVerify, 2⟩,
      ⟨"+15550000", .ActivitySignup, 3⟩],
    published := [⟨"verification", eventBody "+15551234" "00000000"⟩,
      ⟨"verification", eventBody "+15550000" "0a1b2c3d"⟩],
    ticks := 11 }

/-- The call `VerifyPhoneNumber env p code` on `w` gets as far as persisting
the User: the OTP record is read, it has not expired at the clock reading of
the call, its code is the supplied one, and the user lookup and `UpdateUser`
go through. -/
def persistsUser (env : Env) (p code : String) (w : World) : Prop :=
  env.getOTPErr = none ∧
  (∃ o : OTP, w.otps.find? (fun o => o.PhoneNumber == p) = some o ∧
    env.clock w.ticks ≤ o.Expiration ∧ o.Code = code) ∧
  env.getUserErr = none ∧ env.updateUserErr = none

/-! ## What the calls do when the collaborators answer -/

theorem generateOTP_ok (env : Env) (h : env.randErr = none) :
    generateOTP env = .ok (drawnCode env) := by
  simp [generateOTP, randRead, h, drawnCode]

theorem generateOTP_err (env : Env) (d : String) (h : env.randErr = some d) :
    generateOTP env = .error (.external d) := by
  simp [generateOTP, randRead, h]

/-- An issuance in which every call goes through. -/
theorem requestNewOTP_ok (env : Env) (p : String) (w : World)
    (hd : env.deleteOTPErr = none) (hr : env.randErr = none) (hs : env.storeOTPErr = none)
    (hp : env.publishErr = none) :
    requestNewOTP env p w = (.ok (),
      { w with
        otps := (w.otps.filter fun o => !(o.PhoneNumber == p)) ++
          [⟨p, drawnCode env, env.clock w.ticks + otpValidityDuration⟩],
        published := w.published ++ [⟨"verification", eventBody p (drawnCode env)⟩],
        ticks := w.ticks + 1 }) := by
  simp [requestNewOTP, DeleteOTP, hd, generateOTP_ok env hr, timeNow, StoreOTP, hs,
    publishSendOTPEvent, OTPVerificationEvent.Serialize, Publish, hp, eventBody]

theorem filter_eq_nil_of_ne {α : Type} (f : α → String) (l : List α) (p : String)
    (h : ∀ a ∈ l, f a ≠ p) : l.filter (fun a => f a == p) = [] := by
  simp only [List.filter_eq_nil_iff, beq_iff_eq]
  exact h

theorem filter_not_filter {α : Type} (f : α → String) (l : List α) (p : String) :
    (l.filter fun a => !(f a == p)).filter (fun a => f a == p) = [] := by
  simp [List.filter_filter]

theorem find?_eq_none_of_ne (l : List User) (p : String)
    (h : ∀ u ∈ l, u.PhoneNumber ≠ p) : l.find? (fun u => u.PhoneNumber == p) = none := by
  simp only [List.find?_eq_none, beq_iff_eq]
  exact h

/-- A sign-up for a new phone number in which every call goes through. -/
theorem signUp_ok (env : Env) (p : String) (w : World) (hok : env.allSucceed)
    (hnew : ∀ u ∈ w.users, u.PhoneNumber ≠ p) :
    SignUpWithPhoneNumber env p w = (.ok (),
      { users := w.users ++ [⟨p, false, env.clock w.ticks, env.clock (w.ticks + 1)⟩],
        otps := (w.otps.filter fun o => !(o.PhoneNumber == p)) ++
          [⟨p, drawnCode env, env.clock (w.ticks + 2) + otpValidityDuration⟩],
        activities := w.activities ++ [⟨p, .ActivitySignup, env.clock (w.ticks + 3)⟩],
        published := w.published ++ [⟨"verification", eventBody p (drawnCode env)⟩],
        ticks := w.ticks + 4 }) := by
  obtain ⟨hgu, hau, _, hs, _, hd, hra, hp, hr⟩ := hok
  simp [SignUpWithPhoneNumber, GetUser, hgu, find?_eq_none_of_ne _ _ hnew, NewUser, timeNow,
    AddUser, hau, requestNewOTP_ok env p _ hd hr hs hp, RecordActivity, hra]

theorem find?_some_of_mem (l : List User) (p : String)
    (h : ∃ u ∈ l, u.PhoneNumber = p) :
    ∃ u, l.find? (fun u => u.PhoneNumber == p) = some u ∧ u.PhoneNumber = p := by
  cases hf : l.find? (fun u => u.PhoneNumber == p) with
  | none =>
    obtain ⟨u, hu, hp⟩ := h
    simp only [List.find?_eq_none, beq_iff_eq] at hf
    exact absurd hp (hf u hu)
  | some u =>
    have := List.find?_some hf
    exact ⟨u, rfl, by simpa using this⟩

/-- A sign-up verification in which every call goes through: the code
matches the stored one, the record has not expired, the user exists. -/
theorem verify_ok (env : Env) (p : String) (w : World) (o : OTP) (hok : env.allSucceed)
    (ho : w.otps.find? (fun o => o.PhoneNumber == p) = some o)
    (hnow : env.clock w.ticks ≤ o.Expiration)
    (hu : ∃ u ∈ w.users, u.PhoneNumber = p) :
    VerifyPhoneNumber env p o.Code w = (.ok (),
      { users := markVerified w.users p (env.clock (w.ticks + 1)),
        otps := w.otps.filter fun o => !(o.PhoneNumber == p),
        activities := w.activities ++ [⟨p, .ActivityVerify, env.clock (w.ticks + 2)⟩],
        published := w.published,
        ticks := w.ticks + 3 }) := by
  obtain ⟨hgu, _, huu, _, hgo, hd, hra, _, _⟩ := hok
  obtain ⟨u, hfu, hup⟩ := find?_some_of_mem _ _ hu
  simp [VerifyPhoneNumber, GetOTP, hgo, ho, timeNow, not_lt.mpr hnow, GetUser, hgu, hfu,
    User.Verify, UpdateUser, huu, DeleteOTP, hd, RecordActivity, hra, hup, markVerified]

theorem find?_markVerified (l : List User) (p : String) (t : Time) :
    (markVerified l p t).find? (fun u => u.PhoneNumber == p) =
      (l.find? (fun u => u.PhoneNumber == p)).map
        (fun u => { u with Verified := true, UpdatedAt := t }) := by
  induction l with
  | nil => rfl
  | cons a l ih =>
    by_cases h : a.PhoneNumber = p
    · simp [markVerified, List.find?_cons, h]
    · simpa [markVerified, List.find?_cons, h] using ih

theorem find?_filter_not (l : List OTP) (p : String) :
    (l.filter fun o => !(o.PhoneNumber == p)).find? (fun o => o.PhoneNumber == p) = none := by
  simp [List.find?_eq_none]

/-- A login initiation for a verified user in which every call goes through. -/
theorem loginInitiate_ok (env : Env) (p : String) (w : World) (u : User)
    (hgu : env.getUserErr = none) (hd : env.deleteOTPErr = none) (hr : env.randErr = none)
    (hs : env.storeOTPErr = none) (hp : env.publishErr = none)
    (hra : env.recordActivityErr = none)
    (hu : w.users.find? (fun u => u.PhoneNumber == p) = some u) (hv : u.Verified = true) :
    LoginInitiate env p w = (.ok (),
      { users := w.users,
        otps := (w.otps.filter fun o => !(o.PhoneNumber == p)) ++
          [⟨p, drawnCode env, env.clock w.ticks + otpValidityDuration⟩],
        activities := w.activities ++ [⟨p, .ActivityLogin, env.clock (w.ticks + 1)⟩],
        published := w.published ++ [⟨"verification", eventBody p (drawnCode env)⟩],
        ticks := w.ticks + 2 }) := by
  simp [LoginInitiate, GetUser, hgu, hu, User.IsVerified, hv,
    requestNewOTP_ok env p _ hd hr hs hp, timeNow, RecordActivity, hra]

/-! ## Every outcome of an issuance -/

/-- The outcome of an issuance, by the first call that fails. -/
theorem requestNewOTP_cases (env : Env) (p : String) (w : World) :
    requestNewOTP env p w =
      match env.deleteOTPErr with
      | some d => (.error (.external d), w)
      | none =>
        match env.randErr with
        | some d => (.error (.external d),
            { w with otps := w.otps.filter fun o => !(o.PhoneNumber == p) })
        | none =>
          match env.storeOTPErr with
          | some d => (.error (.external d),
              { w with otps := w.otps.filter fun o => !(o.PhoneNumber == p), ticks := w.ticks + 1 })
          | none =>
            match env.publishErr with
            | some d => (.error (.external d),
                { w with
                  otps := (w.otps.filter fun o => !(o.PhoneNumber == p)) ++
                    [⟨p, drawnCode env, env.clock w.ticks + otpValidityDuration⟩],
                  ticks := w.ticks + 1 })
            | none => (.ok (),
                { w with
                  otps := (w.otps.filter fun o => !(o.PhoneNumber == p)) ++
                    [⟨p, drawnCode env, env.clock w.ticks + otpValidityDuration⟩],
                  published := w.published ++ [⟨"verification", eventBody p (drawnCode env)⟩],
                  ticks := w.ticks + 1 }) := by
  cases hd : env.deleteOTPErr with
  | some d => simp [requestNewOTP, DeleteOTP, hd]
  | none =>
    cases hr : env.randErr with
    | some d => simp [requestNewOTP, DeleteOTP, hd, generateOTP_err env d hr]
    | none =>
      cases hs : env.storeOTPErr with
      | some d => simp [requestNewOTP, DeleteOTP, hd, generateOTP_ok env hr, timeNow, StoreOTP, hs]
      | none =>
        cases hp : env.publishErr with
        | some d =>
          simp [requestNewOTP, DeleteOTP, hd, generateOTP_ok env hr, timeNow, StoreOTP, hs,
            publishSendOTPEvent, OTPVerificationEvent.Serialize, Publish, hp]
        | none => simpa using requestNewOTP_ok env p w hd hr hs hp

/-- An issuance returns success only when none of its calls fails. -/
theorem requestNewOTP_ok_inv (env : Env) (p : String) (w : World)
    (h : (requestNewOTP env p w).1 = .ok ()) :
    env.deleteOTPErr = none ∧ env.randErr = none ∧ env.storeOTPErr = none ∧
      env.publishErr = none := by
  rw [requestNewOTP_cases] at h
  cases hd : env.deleteOTPErr <;> cases hr : env.randErr <;> cases hs : env.storeOTPErr <;>
    cases hp : env.publishErr <;> simp [hd, hr, hs, hp] at h ⊢

/-- After the rows of `p` are replaced by one row, that row is the one a lookup for `p` finds. -/
theorem find?_replaced (l : List OTP) (p code : String) (t : Time) :
    ((l.filter fun o => !(o.PhoneNumber == p)) ++ [(⟨p, code, t⟩ : OTP)]).find?
      (fun o => o.PhoneNumber == p) = some ⟨p, code, t⟩ := by
  rw [List.find?_append, find?_filter_not]
  simp

/-! ## The tables along a run -/

theorem mem_of_find? (l : List User) (p : String) (u : User)
    (h : l.find? (fun u => u.PhoneNumber == p) = some u) : u ∈ l ∧ u.PhoneNumber = p :=
  ⟨List.mem_of_find?_eq_some h, by simpa using List.find?_some h⟩

theorem requestNewOTP_shape (env : Env) (p : String) (w : World)
    (hu : ∃ u ∈ w.users, u.PhoneNumber = p) : Shape p w (requestNewOTP env p w).2 := by
  rw [requestNewOTP_cases]
  cases env.deleteOTPErr <;> cases env.randErr <;> cases env.storeOTPErr <;>
    cases env.publishErr <;> simp [Shape, hu]

theorem signUp_shape (env : Env) (p : String) (w : World) :
    Shape p w (SignUpWithPhoneNumber env p w).2 := by
  cases hgu : env.getUserErr with
  | some d => simp [SignUpWithPhoneNumber, GetUser, hgu, Shape]
  | none =>
    cases hfu : w.users.find? (fun u => u.PhoneNumber == p) with
    | some u => simp [SignUpWithPhoneNumber, GetUser, hgu, hfu, Shape]
    | none =>
      cases hau : env.addUserErr with
      | some d => simp [SignUpWithPhoneNumber, GetUser, hgu, hfu, NewUser, timeNow, AddUser, hau, Shape]
      | none =>
        simp only [SignUpWithPhoneNumber, GetUser, hgu, hfu, NewUser, timeNow, AddUser, hau,
          requestNewOTP_cases, RecordActivity]
        cases env.deleteOTPErr <;> cases env.randErr <;> cases env.storeOTPErr <;>
          cases env.publishErr <;> cases env.recordActivityErr <;> simp [Shape] <;>
          exact Or.inr ⟨_, Or.inr rfl, rfl⟩

theorem loginInitiate_shape (env : Env) (p : String) (w : World) :
    Shape p w (LoginInitiate env p w).2 := by
  cases hgu : env.getUserErr with
  | some d => simp [LoginInitiate, GetUser, hgu, Shape]
  | none =>
    cases hfu : w.users.find? (fun u => u.PhoneNumber == p) with
    | none => simp [LoginInitiate, GetUser, hgu, hfu, Shape]
    | some u =>
      have hu : ∃ u ∈ w.users, u.PhoneNumber = p := ⟨u, mem_of_find? _ _ _ hfu⟩
      cases hv : u.Verified with
      | false => simp [LoginInitiate, GetUser, hgu, hfu, User.IsVerified, hv, Shape]
      | true =>
        simp only [LoginInitiate, GetUser, hgu, hfu, User.IsVerified, hv, timeNow,
          requestNewOTP_cases, RecordActivity]
        cases env.deleteOTPErr <;> cases env.randErr <;> cases env.storeOTPErr <;>
          cases env.publishErr <;> cases env.recordActivityErr <;> simp [Shape, hu]

theorem verify_shape (env : Env) (p otp : String) (w : World) :
    Shape p w (VerifyPhoneNumber env p otp w).2 := by
  cases hgo : env.getOTPErr with
  | some d => simp [VerifyPhoneNumber, GetOTP, hgo, Shape]
  | none =>
    cases hfo : w.otps.find? (fun o => o.PhoneNumber == p) with
    | none => simp [VerifyPhoneNumber, GetOTP, hgo, hfo, Shape]
    | some o =>
      by_cases hexp : o.Expiration < env.clock w.ticks
      · simp [VerifyPhoneNumber, GetOTP, hgo, hfo, timeNow, hexp, Shape]
      · by_cases hc : o.Code = otp
        · cases hgu : env.getUserErr with
          | some d => simp [VerifyPhoneNumber, GetOTP, hgo, hfo, timeNow, hexp, hc, GetUser, hgu, Shape]
          | none =>
            cases hfu : w.users.find? (fun u => u.PhoneNumber == p) with
            | none =>
              simp [VerifyPhoneNumber, GetOTP, hgo, hfo, timeNow, hexp, hc, GetUser, hgu, hfu, Shape]
            | some u =>
              have hup := (mem_of_find? _ _ _ hfu).2
              cases huu : env.updateUserErr <;> cases hd : env.deleteOTPErr <;>
                cases hra : env.recordActivityErr <;>
                simp [VerifyPhoneNumber, GetOTP, hgo, hfo, timeNow, hexp, hc, GetUser, hgu, hfu,
                  User.Verify, UpdateUser, huu, DeleteOTP, hd, RecordActivity, hra, Shape, hup,
                  markVerified] <;>
                exact Or.inr (Or.inr ⟨_, fun _ _ => rfl⟩)
        · simp [VerifyPhoneNumber, GetOTP, hgo, hfo, timeNow, hexp, hc, Shape]

theorem validateLogin_shape (env : Env) (p otp : String) (w : World) :
    Shape p w (ValidatePhoneNumberLogin env p otp w).2 := by
  cases hgo : env.getOTPErr with
  | some d => simp [ValidatePhoneNumberLogin, GetOTP, hgo, Shape]
  | none =>
    cases hfo : w.otps.find? (fun o => o.PhoneNumber == p) with
    | none => simp [ValidatePhoneNumberLogin, GetOTP, hgo, hfo, Shape]
    | some o =>
      by_cases hexp : o.Expiration < env.clock w.ticks
      · simp [ValidatePhoneNumberLogin, GetOTP, hgo, hfo, timeNow, hexp, Shape]
      · by_cases hc : o.Code = otp
        · cases hgu : env.getUserErr with
          | some d =>
            simp [ValidatePhoneNumberLogin, GetOTP, hgo, hfo, timeNow, hexp, hc, GetUser, hgu, Shape]
          | none =>
            cases hfu : w.users.find? (fun u => u.PhoneNumber == p) with
            | none =>
              simp [ValidatePhoneNumberLogin, GetOTP, hgo, hfo, timeNow, hexp, hc, GetUser, hgu,
                hfu, Shape]
            | some u =>
              cases hv : u.Verified <;> cases hd : env.deleteOTPErr <;>
                cases hra : env.recordActivityErr <;>
                simp [ValidatePhoneNumberLogin, GetOTP, hgo, hfo, timeNow, hexp, hc, GetUser, hgu,
                  hfu, User.IsVerified, hv, DeleteOTP, hd, RecordActivity, hra, Shape]
        · simp [ValidatePhoneNumberLogin, GetOTP, hgo, hfo, timeNow, hexp, hc, Shape]

theorem getProfile_shape (env : Env) (p : String) (w : World) :
    Shape p w (GetProfile env p w).2 := by
  cases hgu : env.getUserErr <;> cases hfu : w.users.find? (fun u => u.PhoneNumber == p) <;>
    cases hra : env.recordActivityErr <;>
    simp [GetProfile, GetUser, hgu, hfu, timeNow, RecordActivity, hra, Shape]

/-- Whatever a call returns, it changes the tables in one of the ways of `Shape`. -/
theorem run_shape (env : Env) (c : Call) (w : World) : Shape c.phone w (c.run env w) := by
  cases c with
  | signUp p => exact signUp_shape env p w
  | verify p otp => exact verify_shape env p otp w
  | loginInitiate p => exact loginInitiate_shape env p w
  | validateLogin p otp => exact validateLogin_shape env p otp w
  | getProfile p => exact getProfile_shape env p w

theorem mem_markVerified (l : List User) (p : String) (t : Time) (u : User) (h : u ∈ l) :
    ∃ u2 ∈ markVerified l p t, u2.PhoneNumber = u.PhoneNumber := by
  by_cases hp : u.PhoneNumber = p
  · exact ⟨{ u with Verified := true, UpdatedAt := t },
      List.mem_map.mpr ⟨u, h, by simp [hp]⟩, rfl⟩
  · exact ⟨u, List.mem_map.mpr ⟨u, h, by simp [hp]⟩, rfl⟩

theorem Shape.toExtends {p : String} {w w2 : World} (h : Shape p w w2) : Extends w w2 := by
  obtain ⟨hu, ho⟩ := h
  constructor
  · intro u hmem
    rcases hu with hu | ⟨a, _, hu⟩ | ⟨t, hu⟩
    · exact ⟨u, hu ▸ hmem, rfl⟩
    · exact ⟨u, by rw [hu]; exact List.mem_append_left _ hmem, rfl⟩
    · rw [hu]; exact mem_markVerified _ p t u hmem
  · intro o hmem
    rcases ho with ho | ho | ⟨a, hap, hex, ho⟩
    · exact Or.inl (ho ▸ hmem)
    · rw [ho] at hmem; exact Or.inl (List.mem_of_mem_filter hmem)
    · rw [ho] at hmem
      rcases List.mem_append.mp hmem with hm | hm
      · exact Or.inl (List.mem_of_mem_filter hm)
      · have : o = a := by simpa using hm
        subst this
        obtain ⟨u, hu1, hu2⟩ := hex
        exact Or.inr ⟨u, hu1, hu2.trans hap.symm⟩

theorem Extends.preserves {w w2 : World} (h : Extends w w2) (hinv : OtpsHaveUsers w) :
    OtpsHaveUsers w2 := by
  intro o hmem
  rcases h.2 o hmem with hold | hnew
  · obtain ⟨u, hu, hp⟩ := hinv o hold
    obtain ⟨u2, hu2, hp2⟩ := h.1 u hu
    exact ⟨u2, hu2, hp2.trans hp⟩
  · exact hnew

/-- In every reachable world each OTP row belongs to a phone number that has a User row. -/
theorem Reachable.otpsHaveUsers {w : World} (h : Reachable w) : OtpsHaveUsers w := by
  induction h with
  | init => intro o hmem; simp [World.empty] at hmem
  | step env c _ ih => exact (run_shape env c _).toExtends.preserves ih


/-! ## The code alphabet -/

theorem hexDigit_eq_lower (n : Nat) (h : n < 16) : hexDigit n = lowerHexDigit n := by
  interval_cases n <;> rfl

theorem hexDigit_mem (n : Nat) (h : n < 16) : hexDigit n ∈ hextable := by
  interval_cases n <;> decide

theorem hexDigit_inj (m n : Nat) (hm : m < 16) (hn : n < 16) (h : hexDigit m = hexDigit n) :
    m = n := by
  interval_cases m <;> interval_cases n <;> first | rfl | (exact absurd h (by decide))

theorem byte_hi_lt (b : Byte) : b.val / 16 < 16 := by have := b.isLt; omega
theorem byte_lo_lt (b : Byte) : b.val % 16 < 16 := by omega

theorem byte_eq_of_digits (a b : Byte)
    (hhi : hexDigit (a.val / 16) = hexDigit (b.val / 16))
    (hlo : hexDigit (a.val % 16) = hexDigit (b.val % 16)) : a = b := by
  have h1 := hexDigit_inj _ _ (byte_hi_lt a) (byte_hi_lt b) hhi
  have h2 := hexDigit_inj _ _ (byte_lo_lt a) (byte_lo_lt b) hlo
  apply Fin.ext
  omega

theorem drawnCode_toList (env : Env) :
    (drawnCode env).toList =
      [hexDigit ((env.randBytes 0).val / 16), hexDigit ((env.randBytes 0).val % 16),
       hexDigit ((env.randBytes 1).val / 16), hexDigit ((env.randBytes 1).val % 16),
       hexDigit ((env.randBytes 2).val / 16), hexDigit ((env.randBytes 2).val % 16),
       hexDigit ((env.randBytes 3).val / 16), hexDigit ((env.randBytes 3).val % 16)] := by
  simp [drawnCode, EncodeToString, List.range_succ]

/-! ## Reading back what `json.Marshal` wrote -/

theorem hexVal_hexDigit (k : Nat) (h : k < 16) : hexVal (hexDigit k) = some k := by
  interval_cases k <;> rfl

@[simp] theorem step_inString (s : Scan) (acc : List Char) (pending : Option Nat) (c : Char) :
    step { s with mode := .inString acc pending } c =
      stateInString { s with mode := .inString acc pending } acc pending c := rfl

@[simp] theorem step_inStringEsc (s : Scan) (acc : List Char) (pending : Option Nat) (c : Char) :
    step { s with mode := .inStringEsc acc pending } c =
      stateInStringEsc { s with mode := .inStringEsc acc pending } acc pending c := rfl

@[simp] theorem step_inStringEscU (s : Scan) (acc : List Char) (pending : Option Nat)
    (ds : List Nat) (c : Char) :
    step { s with mode := .inStringEscU acc pending ds } c =
      stateInStringEscU { s with mode := .inStringEscU acc pending ds } acc pending ds c := rfl

theorem escU_digit (s : Scan) (acc : List Char) (ds : List Nat) (k : Nat) (hk : k < 16)
    (hds : ds.length < 3) :
    step { s with mode := .inStringEscU acc none ds } (hexDigit k) =
      { s with mode := .inStringEscU acc none (ds ++ [k]) } := by
  simp [stateInStringEscU, hexVal_hexDigit k hk, hds]

theorem escU_last (s : Scan) (acc : List Char) (d0 d1 d2 k v : Nat) (hk : k < 16)
    (hv : 16 * (16 * (16 * d0 + d1) + d2) + k = v) (hlt : v < 55296) :
    step { s with mode := .inStringEscU acc none [d0, d1, d2] } (hexDigit k) =
      { s with mode := .inString (acc ++ [Char.ofNat v]) none } := by
  have h1 : ¬ (55296 ≤ v) := by omega
  have h2 : ¬ (56320 ≤ v) := by omega
  simp [stateInStringEscU, hexVal_hexDigit k hk, freshUnit, hv, h1, h2]

/-- An escape `\u00XY` reads back as the character of code `16 * X + Y`. -/
theorem escape_u00_reads_back (s : Scan) (acc : List Char) (n : Nat) (hn : n < 256) :
    [Char.ofNat 92, 'u', '0', '0', hexDigit (n / 16), hexDigit (n % 16)].foldl step
        { s with mode := .inString acc none } =
      { s with mode := .inString (acc ++ [Char.ofNat n]) none } := by
  have h0 : [Char.ofNat 92, 'u', '0', '0'].foldl step { s with mode := .inString acc none } =
      { s with mode := .inStringEscU acc none [0, 0] } := rfl
  have hsplit : [Char.ofNat 92, 'u', '0', '0', hexDigit (n / 16), hexDigit (n % 16)] =
      [Char.ofNat 92, 'u', '0', '0'] ++ [hexDigit (n / 16), hexDigit (n % 16)] := rfl
  have e1 : step { s with mode := .inStringEscU acc none [0, 0] } (hexDigit (n / 16)) =
      { s with mode := .inStringEscU acc none [0, 0, n / 16] } :=
    escU_digit s acc [0, 0] (n / 16) (by omega) (by decide)
  have e2 := escU_last s acc 0 0 (n / 16) (n % 16) n (by omega) (by omega) (by omega)
  rw [hsplit, List.foldl_append, h0]
  simp only [List.foldl_cons, List.foldl_nil]
  rw [e1, e2]

/-- An escape `\u202Y` reads back as the character of code `8224 + Y`. -/
theorem escape_u202_reads_back (s : Scan) (acc : List Char) (k : Nat) (hk : k < 16) :
    [Char.ofNat 92, 'u', '2', '0', '2', hexDigit k].foldl step
        { s with mode := .inString acc none } =
      { s with mode := .inString (acc ++ [Char.ofNat (8224 + k)]) none } := by
  have h0 : [Char.ofNat 92, 'u', '2', '0', '2'].foldl step
      { s with mode := .inString acc none } =
      { s with mode := .inStringEscU acc none [2, 0, 2] } := rfl
  have hsplit : [Char.ofNat 92, 'u', '2', '0', '2', hexDigit k] =
      [Char.ofNat 92, 'u', '2', '0', '2'] ++ [hexDigit k] := rfl
  have e2 := escU_last s acc 2 0 2 k (8224 + k) hk (by omega) (by omega)
  rw [hsplit, List.foldl_append, h0]
  simp only [List.foldl_cons, List.foldl_nil]
  rw [e2]

/-- The escape of one character reads back as that character. -/
theorem escape_reads_back (s : Scan) (acc : List Char) (c : Char) :
    (jsonEscapeChar c).foldl step { s with mode := .inString acc none } =
      { s with mode := .inString (acc ++ [c]) none } := by
  unfold jsonEscapeChar
  simp only
  split_ifs with h1 h2 h3 h4 h5 h6 h7 h8
  · rcases h1 with rfl | rfl <;> rfl
  · subst h2; rfl
  · subst h3; rfl
  · subst h4; rfl
  · subst h5; rfl
  · subst h6; rfl
  · have hn : c.toNat < 256 := by
      rcases h7 with h | rfl | rfl | rfl
      · omega
      · decide
      · decide
      · decide
    rw [escape_u00_reads_back s acc c.toNat hn, Char.ofNat_toNat]
  · have hk : c.toNat % 16 < 16 := by omega
    rw [escape_u202_reads_back s acc (c.toNat % 16) hk]
    have : 8224 + c.toNat % 16 = c.toNat := by omega
    rw [this, Char.ofNat_toNat]
  · have hq : c ≠ quoteChar := fun h => h1 (Or.inl h)
    have hb : c ≠ backslashChar := fun h => h1 (Or.inr h)
    have hc : ¬ c.toNat < 32 := fun h => h7 (Or.inl h)
    simp [stateInString, hq, hb, hc, flush]

/-- The escaped text of a string reads back as the string. -/
theorem escaped_reads_back (cs : List Char) (s : Scan) (acc : List Char) :
    (cs.flatMap jsonEscapeChar).foldl step { s with mode := .inString acc none } =
      { s with mode := .inString (acc ++ cs) none } := by
  induction cs generalizing acc with
  | nil => simp
  | cons c cs ih =>
    rw [List.flatMap_cons, List.foldl_append, escape_reads_back, ih]
    simp

theorem noteString_mode (s : Scan) (m : Mode) (str : String) :
    { ({ s with mode := m } : Scan).noteString str with mode := .endValue } =
      { s.noteString str with mode := .endValue } := by
  unfold Scan.noteString Scan.target
  cases s with
  | mk mode stack keys event mismatch =>
    simp only
    split
    · rfl
    · split <;> rfl

/-- A JSON string literal, read where a value is expected, ends as the string it quotes. -/
theorem quoted_reads_back (x : String) (s : Scan) (hm : s.mode = .beginValue) :
    (jsonString x).foldl step s = { s.noteString x with mode := .endValue } := by
  have hopen : step s (Char.ofNat 34) = { s with mode := .inString [] none } := by
    cases s with
    | mk mode stack keys event mismatch =>
      simp only at hm
      subst hm
      rfl
  have hclose : ∀ acc : List Char, step { s with mode := .inString acc none } (Char.ofNat 34) =
      { ({ s with mode := .inString acc none } : Scan).noteString (String.mk acc) with
        mode := .endValue } := fun _ => rfl
  unfold jsonString
  rw [List.foldl_append, List.foldl_append]
  simp only [List.foldl_cons, List.foldl_nil]
  rw [hopen, escaped_reads_back, hclose, noteString_mode]
  simp

/-! ## One OTP row per phone number, and the other phone numbers -/

theorem Shape.atMostOne {p : String} {w w2 : World} (h : Shape p w w2) (hinv : AtMostOneOtp w) :
    AtMostOneOtp w2 := by
  intro q
  have hsub : ((w.otps.filter fun o => !(o.PhoneNumber == p)).filter
      (fun o => o.PhoneNumber == q)).length ≤ (otpsOf w q).length := by
    rw [List.filter_filter, otpsOf]
    apply List.Sublist.length_le
    apply List.monotone_filter_right
    intro o ho
    simp at ho ⊢
    exact ho.1
  rcases h.2 with ho | ho | ⟨o, hop, _, ho⟩
  · rw [otpsOf, ho]; exact hinv q
  · rw [otpsOf, ho]; exact le_trans hsub (hinv q)
  · rw [otpsOf, ho, List.filter_append]
    by_cases hqp : q = p
    · subst hqp
      simp [filter_not_filter OTP.PhoneNumber, hop]
    · have : ¬ (o.PhoneNumber = q) := by rw [hop]; exact fun h => hqp h.symm
      simp only [List.filter_cons, List.filter_nil, beq_iff_eq, this, if_false,
        List.append_nil]
      exact le_trans hsub (hinv q)

theorem runCalls_atMostOne (steps : List (Env × Call)) (w : World) (hinv : AtMostOneOtp w) :
    AtMostOneOtp (runCalls steps w) := by
  induction steps generalizing w with
  | nil => exact hinv
  | cons s steps ih =>
    exact ih _ ((run_shape s.1 s.2 w).atMostOne hinv)

theorem requestNewOTP_trail (env : Env) (p : String) (w : World) :
    Trail p w (requestNewOTP env p w).2 := by
  rw [requestNewOTP_cases]
  cases env.deleteOTPErr <;> cases env.randErr <;> cases env.storeOTPErr <;>
    cases env.publishErr <;> simp [Trail]

theorem signUp_trail (env : Env) (p : String) (w : World) :
    Trail p w (SignUpWithPhoneNumber env p w).2 := by
  cases hgu : env.getUserErr with
  | some d => simp [SignUpWithPhoneNumber, GetUser, hgu, Trail]
  | none =>
    cases hfu : w.users.find? (fun u => u.PhoneNumber == p) with
    | some u => simp [SignUpWithPhoneNumber, GetUser, hgu, hfu, Trail]
    | none =>
      cases hau : env.addUserErr with
      | some d => simp [SignUpWithPhoneNumber, GetUser, hgu, hfu, NewUser, timeNow, AddUser, hau, Trail]
      | none =>
        simp only [SignUpWithPhoneNumber, GetUser, hgu, hfu, NewUser, timeNow, AddUser, hau,
          requestNewOTP_cases, RecordActivity]
        cases env.deleteOTPErr <;> cases env.randErr <;> cases env.storeOTPErr <;>
          cases env.publishErr <;> cases env.recordActivityErr <;> simp [Trail]

theorem loginInitiate_trail (env : Env) (p : String) (w : World) :
    Trail p w (LoginInitiate env p w).2 := by
  cases hgu : env.getUserErr with
  | some d => simp [LoginInitiate, GetUser, hgu, Trail]
  | none =>
    cases hfu : w.users.find? (fun u => u.PhoneNumber == p) with
    | none => simp [LoginInitiate, GetUser, hgu, hfu, Trail]
    | some u =>
      cases hv : u.Verified with
      | false => simp [LoginInitiate, GetUser, hgu, hfu, User.IsVerified, hv, Trail]
      | true =>
        simp only [LoginInitiate, GetUser, hgu, hfu, User.IsVerified, hv, timeNow,
          requestNewOTP_cases, RecordActivity]
        cases env.deleteOTPErr <;> cases env.randErr <;> cases env.storeOTPErr <;>
          cases env.publishErr <;> cases env.recordActivityErr <;> simp [Trail]

theorem verify_trail (env : Env) (p otp : String) (w : World) :
    Trail p w (VerifyPhoneNumber env p otp w).2 := by
  cases hgo : env.getOTPErr with
  | some d => simp [VerifyPhoneNumber, GetOTP, hgo, Trail]
  | none =>
    cases hfo : w.otps.find? (fun o => o.PhoneNumber == p) with
    | none => simp [VerifyPhoneNumber, GetOTP, hgo, hfo, Trail]
    | some o =>
      by_cases hexp : o.Expiration < env.clock w.ticks
      · simp [VerifyPhoneNumber, GetOTP, hgo, hfo, timeNow, hexp, Trail]
      · by_cases hc : o.Code = otp
        · cases hgu : env.getUserErr <;>
          cases hfu : w.users.find? (fun u => u.PhoneNumber == p) <;>
          cases huu : env.updateUserErr <;> cases hd : env.deleteOTPErr <;>
          cases hra : env.recordActivityErr <;>
          simp [VerifyPhoneNumber, GetOTP, hgo, hfo, timeNow, hexp, hc, GetUser, hgu, hfu,
            User.Verify, UpdateUser, huu, DeleteOTP, hd, RecordActivity, hra, Trail]
        · simp [VerifyPhoneNumber, GetOTP, hgo, hfo, timeNow, hexp, hc, Trail]

theorem validateLogin_trail (env : Env) (p otp : String) (w : World) :
    Trail p w (ValidatePhoneNumberLogin env p otp w).2 := by
  cases hgo : env.getOTPErr with
  | some d => simp [ValidatePhoneNumberLogin, GetOTP, hgo, Trail]
  | none =>
    cases hfo : w.otps.find? (fun o => o.PhoneNumber == p) with
    | none => simp [ValidatePhoneNumberLogin, GetOTP, hgo, hfo, Trail]
    | some o =>
      by_cases hexp : o.Expiration < env.clock w.ticks
      · simp [ValidatePhoneNumberLogin, GetOTP, hgo, hfo, timeNow, hexp, Trail]
      · by_cases hc : o.Code = otp
        · cases hgu : env.getUserErr with
          | some d =>
            simp [ValidatePhoneNumberLogin, GetOTP, hgo, hfo, timeNow, hexp, hc, GetUser, hgu, Trail]
          | none =>
            cases hfu : w.users.find? (fun u => u.PhoneNumber == p) with
            | none =>
              simp [ValidatePhoneNumberLogin, GetOTP, hgo, hfo, timeNow, hexp, hc, GetUser, hgu,
                hfu, Trail]
            | some u =>
              cases hv : u.Verified <;> cases hd : env.deleteOTPErr <;>
                cases hra : env.recordActivityErr <;>
                simp [ValidatePhoneNumberLogin, GetOTP, hgo, hfo, timeNow, hexp, hc, GetUser, hgu,
                  hfu, User.IsVerified, hv, DeleteOTP, hd, RecordActivity, hra, Trail]
        · simp [ValidatePhoneNumberLogin, GetOTP, hgo, hfo, timeNow, hexp, hc, Trail]

theorem getProfile_trail (env : Env) (p : String) (w : World) :
    Trail p w (GetProfile env p w).2 := by
  cases hgu : env.getUserErr <;> cases hfu : w.users.find? (fun u => u.PhoneNumber == p) <;>
    cases hra : env.recordActivityErr <;>
    simp [GetProfile, GetUser, hgu, hfu, timeNow, RecordActivity, hra, Trail]

/-- Whatever a call returns, it adds to the log and to the broker in one of the ways of `Trail`. -/
theorem run_trail (env : Env) (c : Call) (w : World) : Trail c.phone w (c.run env w) := by
  cases c with
  | signUp p => exact signUp_trail env p w
  | verify p otp => exact verify_trail env p otp w
  | loginInitiate p => exact loginInitiate_trail env p w
  | validateLogin p otp => exact validateLogin_trail env p otp w
  | getProfile p => exact getProfile_trail env p w

theorem usersOf_markVerified (l : List User) (p q : String) (t : Time) (hq : q ≠ p) :
    (markVerified l p t).filter (fun u => u.PhoneNumber == q) =
      l.filter (fun u => u.PhoneNumber == q) := by
  induction l with
  | nil => rfl
  | cons a l ih =>
    have ih2 := ih
    simp [markVerified] at ih2
    by_cases hap : a.PhoneNumber = p
    · have haq : ¬ a.PhoneNumber = q := fun h => hq (h.symm.trans hap)
      have hpq : ¬ p = q := fun h => hq h.symm
      simp [markVerified, List.filter_cons, hap, haq, hpq, ih2]
    · simp [markVerified, List.filter_cons, hap, ih2]

theorem filter_other (l : List OTP) (p q : String) (hq : q ≠ p) :
    (l.filter fun o => !(o.PhoneNumber == p)).filter (fun o => o.PhoneNumber == q) =
      l.filter (fun o => o.PhoneNumber == q) := by
  rw [List.filter_filter]
  apply List.filter_congr
  intro o _
  by_cases h : o.PhoneNumber = q
  · have : ¬ o.PhoneNumber = p := fun h2 => hq (h.symm.trans h2)
    simp [h, this, hq]
  · simp [h]

/-- A call on `p` leaves the User rows and the OTP rows of every other phone number as they were. -/
theorem Shape.other {p q : String} {w w2 : World} (h : Shape p w w2) (hq : q ≠ p) :
    usersOf w2 q = usersOf w q ∧ otpsOf w2 q = otpsOf w q := by
  constructor
  · rcases h.1 with hu | ⟨u, hup, hu⟩ | ⟨t, hu⟩
    · rw [usersOf, hu]; rfl
    · have : ¬ u.PhoneNumber = q := by rw [hup]; exact fun h => hq h.symm
      rw [usersOf, hu, List.filter_append]
      simp [this, usersOf]
    · rw [usersOf, hu, usersOf_markVerified _ _ _ _ hq]; rfl
  · rcases h.2 with ho | ho | ⟨o, hop, _, ho⟩
    · rw [otpsOf, ho]; rfl
    · rw [otpsOf, ho, filter_other _ _ _ hq]; rfl
    · have : ¬ o.PhoneNumber = q := by rw [hop]; exact fun h => hq h.symm
      rw [otpsOf, ho, List.filter_append, filter_other _ _ _ hq]
      simp [this, otpsOf]

/-- The body of an issuance event decodes to its phone number and code. -/
theorem deserialize_eventBody (phone code : String) :
    DeserializeOTPEvent (eventBody phone code) = .ok ⟨phone, code⟩ := by
  have hscan : scanAll (eventBody phone code) =
      { mode := .endTop, stack := [], keys := ["phoneNumber", "otpCode"],
        event := ⟨phone, code⟩, mismatch := false } := by
    show step (List.foldl step Scan.start ("\x7b\"phoneNumber\":".toList ++ jsonString phone ++
      ",\"otpCode\":".toList ++ jsonString code ++ "\x7d".toList)) ' ' = _
    simp only [List.foldl_append]
    have h1 : "\x7b\"phoneNumber\":".toList.foldl step Scan.start =
        { mode := .beginValue, stack := [.parseObjectValue], keys := ["phoneNumber"],
          event := ⟨"", ""⟩, mismatch := false } := rfl
    rw [h1, quoted_reads_back phone _ rfl]
    have h2 : ",\"otpCode\":".toList.foldl step
        { ({ mode := .beginValue, stack := [.parseObjectValue], keys := ["phoneNumber"],
              event := ⟨"", ""⟩, mismatch := false } : Scan).noteString phone with
          mode := .endValue } =
        { mode := .beginValue, stack := [.parseObjectValue], keys := ["phoneNumber", "otpCode"],
          event := ⟨phone, ""⟩, mismatch := false } := rfl
    rw [h2, quoted_reads_back code _ rfl]
    rfl
  simp [DeserializeOTPEvent, Unmarshal, hscan]

/-! ## The claims -/

/-- C1: a sign-up for a phone number that has no User record, in an
environment where every store, random-source and channel call goes through,
returns success and leaves exactly one User row for the phone number, with
`Verified = false`, and exactly one OTP row for it. -/
theorem signUp_fresh_leaves_one_user_one_otp (env : Env) (p : String) (w : World)
    (hok : env.allSucceed) (hnew : ∀ u ∈ w.users, u.PhoneNumber ≠ p) :
    (SignUpWithPhoneNumber env p w).1 = .ok () ∧
    usersOf (SignUpWithPhoneNumber env p w).2 p =
      [{ PhoneNumber := p, Verified := false,
         CreatedAt := env.clock w.ticks, UpdatedAt := env.clock (w.ticks + 1) }] ∧
    otpsOf (SignUpWithPhoneNumber env p w).2 p =
      [{ PhoneNumber := p, Code := drawnCode env,
         Expiration := env.clock (w.ticks + 2) + otpValidityDuration }] := by
  rw [signUp_ok env p w hok hnew]
  refine ⟨rfl, ?_, ?_⟩
  · simp [usersOf, List.filter_append, filter_eq_nil_of_ne User.PhoneNumber _ p hnew]
  · simp [otpsOf, List.filter_append, filter_not_filter OTP.PhoneNumber w.otps p]

theorem signUp_fresh_leaves_one_user_one_otp_witness :
    (SignUpWithPhoneNumber (calmEnv 5) "+15551234" World.empty).1 = .ok () ∧
    usersOf (SignUpWithPhoneNumber (calmEnv 5) "+15551234" World.empty).2 "+15551234" =
      [{ PhoneNumber := "+15551234", Verified := false, CreatedAt := 5, UpdatedAt := 5 }] ∧
    otpsOf (SignUpWithPhoneNumber (calmEnv 5) "+15551234" World.empty).2 "+15551234" =
      [{ PhoneNumber := "+15551234", Code := drawnCode (calmEnv 5),
         Expiration := 5 + otpValidityDuration }] :=
  signUp_fresh_leaves_one_user_one_otp (calmEnv 5) "+15551234" World.empty
    (by decide) (by simp [World.empty])

/-- C2: a sign-up for a phone number that already has a User record (the
Identity Store lookup returning it) fails with `ErrUserAlreadyExists` and
leaves the world exactly as it was: users, OTP rows, activity log and
published events. -/
theorem signUp_existing_user_rejected (env : Env) (p : String) (w : World)
    (hget : env.getUserErr = none) (hu : ∃ u ∈ w.users, u.PhoneNumber = p) :
    SignUpWithPhoneNumber env p w = (.error .ErrUserAlreadyExists, w) := by
  obtain ⟨u, hfu, _⟩ := find?_some_of_mem _ _ hu
  simp [SignUpWithPhoneNumber, GetUser, hget, hfu]

theorem signUp_existing_user_rejected_witness :
    SignUpWithPhoneNumber (calmEnv 5) "+15551234" pendingWorld =
      (.error .ErrUserAlreadyExists, pendingWorld) :=
  signUp_existing_user_rejected (calmEnv 5) "+15551234" pendingWorld rfl
    ⟨⟨"+15551234", false, 1, 1⟩, by simp [pendingWorld], rfl⟩

/-- C3: for a phone number with a User record and an OTP record (code and
expiry as the Credential Store returns them), at a clock reading not after
the expiry and with every store call going through, `VerifyPhoneNumber` with
the stored code succeeds; afterwards `GetProfile` returns the User with
`Verified = true`, and an immediately repeated `VerifyPhoneNumber` with the
same code fails with `ErrOTPNotFound`. -/
theorem verify_succeeds_once (env env2 env3 : Env) (p : String) (w : World) (o : OTP)
    (hok : env.allSucceed) (hu : ∃ u ∈ w.users, u.PhoneNumber = p)
    (ho : w.otps.find? (fun o => o.PhoneNumber == p) = some o)
    (hnow : env.clock w.ticks ≤ o.Expiration)
    (hgu2 : env2.getUserErr = none) (hra2 : env2.recordActivityErr = none)
    (hgo3 : env3.getOTPErr = none) :
    (VerifyPhoneNumber env p o.Code w).1 = .ok () ∧
    (∃ u : User, (GetProfile env2 p (VerifyPhoneNumber env p o.Code w).2).1 = .ok u ∧
      u.PhoneNumber = p ∧ u.Verified = true) ∧
    (VerifyPhoneNumber env3 p o.Code (VerifyPhoneNumber env p o.Code w).2).1 =
      .error .ErrOTPNotFound := by
  rw [verify_ok env p w o hok ho hnow hu]
  obtain ⟨u, hfu, hup⟩ := find?_some_of_mem _ _ hu
  refine ⟨rfl, ⟨{ u with Verified := true, UpdatedAt := env.clock (w.ticks + 1) }, ?_, hup, rfl⟩, ?_⟩
  · simp [GetProfile, GetUser, hgu2, find?_markVerified, hfu, timeNow, RecordActivity, hra2]
  · simp only [VerifyPhoneNumber, GetOTP, hgo3, find?_filter_not]

theorem verify_succeeds_once_witness :
    (VerifyPhoneNumber (calmEnv 100) "+15551234" "0a1b2c3d" pendingWorld).1 = .ok () ∧
    (∃ u : User, (GetProfile (calmEnv 101) "+15551234"
        (VerifyPhoneNumber (calmEnv 100) "+15551234" "0a1b2c3d" pendingWorld).2).1 = .ok u ∧
      u.PhoneNumber = "+15551234" ∧ u.Verified = true) ∧
    (VerifyPhoneNumber (calmEnv 100) "+15551234" "0a1b2c3d"
        (VerifyPhoneNumber (calmEnv 100) "+15551234" "0a1b2c3d" pendingWorld).2).1 =
      .error .ErrOTPNotFound :=
  verify_succeeds_once (calmEnv 100) (calmEnv 101) (calmEnv 100) "+15551234" pendingWorld
    ⟨"+15551234", "0a1b2c3d", 100⟩ (by decide)
    ⟨⟨"+15551234", false, 1, 1⟩, by simp [pendingWorld], rfl⟩ rfl (by decide) rfl rfl rfl

/-- C4: for a phone number whose OTP record the Credential Store returns,
whatever code is supplied, `VerifyPhoneNumber` and `ValidatePhoneNumberLogin`
fail with `ErrOTPExpired` exactly when the clock reading is strictly after
the expiry of the record (so not at the expiry instant itself, and for an
expired record with any code). -/
theorem expired_iff_now_after_expiry (env : Env) (p code : String) (w : World) (o : OTP)
    (hget : env.getOTPErr = none)
    (ho : w.otps.find? (fun o => o.PhoneNumber == p) = some o) :
    ((VerifyPhoneNumber env p code w).1 = .error .ErrOTPExpired ↔
        o.Expiration < env.clock w.ticks) ∧
    ((ValidatePhoneNumberLogin env p code w).1 = .error .ErrOTPExpired ↔
        o.Expiration < env.clock w.ticks) := by
  constructor
  · by_cases hexp : o.Expiration < env.clock w.ticks
    · simp [VerifyPhoneNumber, GetOTP, hget, ho, timeNow, hexp]
    · by_cases hc : o.Code = code
      · cases hgu : env.getUserErr <;>
        cases hfu : w.users.find? (fun u => u.PhoneNumber == p) <;>
        cases huu : env.updateUserErr <;> cases hd : env.deleteOTPErr <;>
        cases hra : env.recordActivityErr <;>
        simp [VerifyPhoneNumber, GetOTP, hget, ho, timeNow, hexp, hc, GetUser, hgu, hfu,
          User.Verify, UpdateUser, huu, DeleteOTP, hd, RecordActivity, hra]
      · simp [VerifyPhoneNumber, GetOTP, hget, ho, timeNow, hexp, hc]
  · by_cases hexp : o.Expiration < env.clock w.ticks
    · simp [ValidatePhoneNumberLogin, GetOTP, hget, ho, timeNow, hexp]
    · by_cases hc : o.Code = code
      · cases hgu : env.getUserErr <;>
        cases hfu : w.users.find? (fun u => u.PhoneNumber == p) <;>
        cases hd : env.deleteOTPErr <;> cases hra : env.recordActivityErr <;>
        simp [ValidatePhoneNumberLogin, GetOTP, hget, ho, timeNow, hexp, hc, GetUser, hgu, hfu,
          DeleteOTP, hd, RecordActivity, hra] <;>
        split <;> simp
      · simp [ValidatePhoneNumberLogin, GetOTP, hget, ho, timeNow, hexp, hc]

theorem expired_iff_now_after_expiry_witness :
    ((VerifyPhoneNumber (calmEnv 100) "+15551234" "zz" pendingWorld).1 = .error .ErrOTPExpired ↔
        (100 : Int) < 100) ∧
    ((ValidatePhoneNumberLogin (calmEnv 100) "+15551234" "zz" pendingWorld).1 =
        .error .ErrOTPExpired ↔ (100 : Int) < 100) :=
  expired_iff_now_after_expiry (calmEnv 100) "+15551234" "zz" pendingWorld
    ⟨"+15551234", "0a1b2c3d", 100⟩ rfl rfl

/-- C6: `LoginInitiate` fails with `ErrUserNotFound` when the phone number
has no User record, and with `ErrUserNotVerified` when the Identity Store
returns a User that is not verified; in both cases the world is left exactly
as it was: no issuance event, no change to the OTP rows, the users or the
activity log. -/
theorem loginInitiate_unknown_or_unverified (env : Env) (p : String) (w : World) :
    ((∀ u ∈ w.users, u.PhoneNumber ≠ p) →
      LoginInitiate env p w = (.error .ErrUserNotFound, w)) ∧
    (∀ u : User, env.getUserErr = none →
      w.users.find? (fun u => u.PhoneNumber == p) = some u → u.Verified = false →
      LoginInitiate env p w = (.error .ErrUserNotVerified, w)) := by
  constructor
  · intro hnew
    cases hg : env.getUserErr <;>
      simp [LoginInitiate, GetUser, hg, find?_eq_none_of_ne _ _ hnew]
  · intro u hg hu hv
    simp [LoginInitiate, GetUser, hg, hu, User.IsVerified, hv]

theorem loginInitiate_unknown_or_unverified_witness :
    LoginInitiate (calmEnv 5) "+15550000" pendingWorld = (.error .ErrUserNotFound, pendingWorld) ∧
    LoginInitiate (calmEnv 5) "+15551234" pendingWorld =
      (.error .ErrUserNotVerified, pendingWorld) :=
  ⟨(loginInitiate_unknown_or_unverified (calmEnv 5) "+15550000" pendingWorld).1
      (by simp [pendingWorld]),
   (loginInitiate_unknown_or_unverified (calmEnv 5) "+15551234" pendingWorld).2
      ⟨"+15551234", false, 1, 1⟩ rfl rfl rfl⟩

/-- C5: in a reachable world, for a phone number with an unexpired OTP
record (as the Credential Store returns it) and a supplied code that is not
exactly the stored one, `VerifyPhoneNumber` fails with `ErrInvalidOTP` and
changes no table (only the clock has been read once); a following
`VerifyPhoneNumber` with the stored code, before expiry and with the store
calls going through, succeeds. -/
theorem wrong_code_rejected_record_intact (env env2 : Env) (p wrong : String) (w : World)
    (o : OTP) (hreach : Reachable w) (hget : env.getOTPErr = none)
    (ho : w.otps.find? (fun o => o.PhoneNumber == p) = some o)
    (hnow : env.clock w.ticks ≤ o.Expiration) (hwrong : wrong ≠ o.Code) :
    VerifyPhoneNumber env p wrong w = (.error .ErrInvalidOTP, { w with ticks := w.ticks + 1 }) ∧
    (env2.allSucceed → env2.clock (w.ticks + 1) ≤ o.Expiration →
      (VerifyPhoneNumber env2 p o.Code (VerifyPhoneNumber env p wrong w).2).1 = .ok ()) := by
  have h1 : VerifyPhoneNumber env p wrong w =
      (.error .ErrInvalidOTP, { w with ticks := w.ticks + 1 }) := by
    simp [VerifyPhoneNumber, GetOTP, hget, ho, timeNow, not_lt.mpr hnow, Ne.symm hwrong]
  refine ⟨h1, fun hok2 hnow2 => ?_⟩
  rw [h1]
  have hmem : o ∈ w.otps := List.mem_of_find?_eq_some ho
  have hop : o.PhoneNumber = p := by simpa using List.find?_some ho
  obtain ⟨u, hu, hup⟩ := hreach.otpsHaveUsers o hmem
  rw [verify_ok env2 p { w with ticks := w.ticks + 1 } o hok2 ho hnow2 ⟨u, hu, hup.trans hop⟩]

theorem wrong_code_rejected_record_intact_witness :
    VerifyPhoneNumber (calmEnv 9) "+15551234" "0000000A" signedUpWorld =
      (.error .ErrInvalidOTP, { signedUpWorld with ticks := signedUpWorld.ticks + 1 }) ∧
    (VerifyPhoneNumber (calmEnv 9) "+15551234" "00000000"
      (VerifyPhoneNumber (calmEnv 9) "+15551234" "0000000A" signedUpWorld).2).1 = .ok () :=
  have h := wrong_code_rejected_record_intact (calmEnv 9) (calmEnv 9) "+15551234" "0000000A"
    signedUpWorld ⟨"+15551234", "00000000", 5 + otpValidityDuration⟩
    (Reachable.step (calmEnv 5) (.signUp "+15551234") Reachable.init) rfl rfl (by decide)
    (by decide)
  ⟨h.1, h.2 (by decide) (by decide)⟩

/-- C7, as amended: after two successful issuances in a row for one phone
number whose codes differ, `VerifyPhoneNumber` with the first code fails,
whatever the environment and the clock reading (so also before the first
code has expired): with `ErrInvalidOTP` when the Credential Store returns the
record and the second code has not expired. -/
theorem superseded_code_fails (env1 env2 env3 : Env) (p : String) (w : World)
    (h1 : (requestNewOTP env1 p w).1 = .ok ())
    (h2 : (requestNewOTP env2 p (requestNewOTP env1 p w).2).1 = .ok ())
    (hne : drawnCode env1 ≠ drawnCode env2) :
    otpsOf (requestNewOTP env1 p w).2 p =
      [⟨p, drawnCode env1, env1.clock w.ticks + otpValidityDuration⟩] ∧
    otpsOf (requestNewOTP env2 p (requestNewOTP env1 p w).2).2 p =
      [⟨p, drawnCode env2, env2.clock (w.ticks + 1) + otpValidityDuration⟩] ∧
    (VerifyPhoneNumber env3 p (drawnCode env1)
      (requestNewOTP env2 p (requestNewOTP env1 p w).2).2).1 ≠ .ok () ∧
    (env3.getOTPErr = none →
      env3.clock (w.ticks + 2) ≤ env2.clock (w.ticks + 1) + otpValidityDuration →
      (VerifyPhoneNumber env3 p (drawnCode env1)
        (requestNewOTP env2 p (requestNewOTP env1 p w).2).2).1 = .error .ErrInvalidOTP) := by
  obtain ⟨hd1, hr1, hs1, hp1⟩ := requestNewOTP_ok_inv env1 p w h1
  rw [requestNewOTP_ok env1 p w hd1 hr1 hs1 hp1] at h2 ⊢
  obtain ⟨hd2, hr2, hs2, hp2⟩ := requestNewOTP_ok_inv env2 p _ h2
  rw [requestNewOTP_ok env2 p _ hd2 hr2 hs2 hp2]
  refine ⟨?_, ?_, ?_, ?_⟩
  · simp [otpsOf, List.filter_append, filter_not_filter OTP.PhoneNumber]
  · simp [otpsOf, List.filter_append, filter_not_filter OTP.PhoneNumber]
  · cases hg : env3.getOTPErr with
    | some d => simp [VerifyPhoneNumber, GetOTP, hg]
    | none =>
      simp only [VerifyPhoneNumber, GetOTP, hg, find?_replaced, timeNow]
      split
      · simp
      · simp [Ne.symm hne]
  · intro hg hnow
    simp only [VerifyPhoneNumber, GetOTP, hg, find?_replaced, timeNow]
    simp [not_lt.mpr hnow, Ne.symm hne]

theorem superseded_code_fails_witness :
    otpsOf (requestNewOTP (calmEnv 5) "+15551234" verifiedWorld).2 "+15551234" =
      [⟨"+15551234", drawnCode (calmEnv 5), 5 + otpValidityDuration⟩] ∧
    otpsOf (requestNewOTP calmEnvOnes "+15551234"
        (requestNewOTP (calmEnv 5) "+15551234" verifiedWorld).2).2 "+15551234" =
      [⟨"+15551234", drawnCode calmEnvOnes, 6 + otpValidityDuration⟩] ∧
    (VerifyPhoneNumber (calmEnv 7) "+15551234" (drawnCode (calmEnv 5))
      (requestNewOTP calmEnvOnes "+15551234"
        (requestNewOTP (calmEnv 5) "+15551234" verifiedWorld).2).2).1 ≠ .ok () :=
  have h := superseded_code_fails (calmEnv 5) calmEnvOnes (calmEnv 7) "+15551234" verifiedWorld
    rfl rfl (by decide)
  ⟨h.1, h.2.1, h.2.2.1⟩

/-- C7, as stated, fails: two issuances in a row for `+15551234` both succeed,
the random source giving the same four bytes, so both codes are `00000000`;
`VerifyPhoneNumber` with the first code, before the first expiry, then
succeeds. -/
theorem reissue_same_draw_first_code_verifies :
    (requestNewOTP (calmEnv 5) "+15551234" verifiedWorld).1 = .ok () ∧
    otpsOf (requestNewOTP (calmEnv 5) "+15551234" verifiedWorld).2 "+15551234" =
      [⟨"+15551234", "00000000", 5 + otpValidityDuration⟩] ∧
    (requestNewOTP (calmEnv 6) "+15551234"
      (requestNewOTP (calmEnv 5) "+15551234" verifiedWorld).2).1 = .ok () ∧
    otpsOf reissuedWorld "+15551234" = [⟨"+15551234", "00000000", 6 + otpValidityDuration⟩] ∧
    (calmEnv 7).clock reissuedWorld.ticks ≤ 5 + otpValidityDuration ∧
    (VerifyPhoneNumber (calmEnv 7) "+15551234" "00000000" reissuedWorld).1 = .ok () :=
  ⟨rfl, rfl, rfl, rfl, by decide, rfl⟩

/-- C8: the OTP record is persisted before the event is published.  When
`StoreOTP` fails the issuance fails and publishes nothing, and it returns
that very failure when the calls before it (delete, random source) went
through.  Whatever happens, an issuance publishes at most one message, and
if it does, the message is the event of the phone number and of the code
that the issuance left as the one OTP row of the phone number. -/
theorem otp_stored_before_published (env : Env) (p : String) (w : World) :
    (∀ d : String, env.storeOTPErr = some d →
      (requestNewOTP env p w).1 ≠ .ok () ∧
      (requestNewOTP env p w).2.published = w.published ∧
      (env.deleteOTPErr = none → env.randErr = none →
        (requestNewOTP env p w).1 = .error (.external d))) ∧
    ((requestNewOTP env p w).2.published = w.published ∨
      ((requestNewOTP env p w).2.published =
          w.published ++ [⟨"verification", eventBody p (drawnCode env)⟩] ∧
        OTPVerificationEvent.Serialize ⟨p, drawnCode env⟩ = .ok (eventBody p (drawnCode env)) ∧
        otpsOf (requestNewOTP env p w).2 p =
          [⟨p, drawnCode env, env.clock w.ticks + otpValidityDuration⟩])) := by
  rw [requestNewOTP_cases]
  constructor
  · intro d hs
    cases hd : env.deleteOTPErr <;> cases hr : env.randErr <;> simp [hs]
  · cases hd : env.deleteOTPErr <;> cases hr : env.randErr <;> cases hs : env.storeOTPErr <;>
      cases hp : env.publishErr <;>
      simp [otpsOf, List.filter_append, filter_not_filter OTP.PhoneNumber,
        OTPVerificationEvent.Serialize, eventBody]

theorem otp_stored_before_published_witness :
    (requestNewOTP storeDownEnv "+15551234" verifiedWorld).1 ≠ .ok () ∧
    (requestNewOTP storeDownEnv "+15551234" verifiedWorld).2.published = verifiedWorld.published ∧
    (requestNewOTP storeDownEnv "+15551234" verifiedWorld).1 =
      .error (.external "otps: connection refused") :=
  have h := (otp_stored_before_published storeDownEnv "+15551234" verifiedWorld).1
    "otps: connection refused" rfl
  ⟨h.1, h.2.1, h.2.2 rfl rfl⟩

/-- C9: when `Publish` fails in an issuance (the delete, the random source
and `StoreOTP` having gone through), `requestNewOTP` returns that failure,
the new OTP record stays in the table with its code and expiry, nothing is
published and the activity log is untouched; and so do `LoginInitiate` (for
a verified user) and `SignUpWithPhoneNumber` (for a new phone number), which
append no activity record. -/
theorem publish_failure_keeps_otp (env : Env) (p d : String) (w : World)
    (hp : env.publishErr = some d) (hd : env.deleteOTPErr = none) (hr : env.randErr = none)
    (hs : env.storeOTPErr = none) :
    ((requestNewOTP env p w).1 = .error (.external d) ∧
      otpsOf (requestNewOTP env p w).2 p =
        [⟨p, drawnCode env, env.clock w.ticks + otpValidityDuration⟩] ∧
      (requestNewOTP env p w).2.activities = w.activities ∧
      (requestNewOTP env p w).2.published = w.published) ∧
    (∀ u : User, env.getUserErr = none →
      w.users.find? (fun u => u.PhoneNumber == p) = some u → u.Verified = true →
      (LoginInitiate env p w).1 = .error (.external d) ∧
      otpsOf (LoginInitiate env p w).2 p =
        [⟨p, drawnCode env, env.clock w.ticks + otpValidityDuration⟩] ∧
      (LoginInitiate env p w).2.activities = w.activities ∧
      (LoginInitiate env p w).2.published = w.published) ∧
    (env.getUserErr = none → (∀ u ∈ w.users, u.PhoneNumber ≠ p) → env.addUserErr = none →
      (SignUpWithPhoneNumber env p w).1 = .error (.external d) ∧
      otpsOf (SignUpWithPhoneNumber env p w).2 p =
        [⟨p, drawnCode env, env.clock (w.ticks + 2) + otpValidityDuration⟩] ∧
      (SignUpWithPhoneNumber env p w).2.activities = w.activities ∧
      (SignUpWithPhoneNumber env p w).2.published = w.published) := by
  refine ⟨?_, ?_, ?_⟩
  · simp [requestNewOTP_cases, hp, hd, hr, hs, otpsOf, List.filter_append,
      filter_not_filter OTP.PhoneNumber]
  · intro u hgu hfu hv
    simp [LoginInitiate, GetUser, hgu, hfu, User.IsVerified, hv, requestNewOTP_cases, hp, hd,
      hr, hs, otpsOf, List.filter_append, filter_not_filter OTP.PhoneNumber]
  · intro hgu hnew hau
    simp [SignUpWithPhoneNumber, GetUser, hgu, find?_eq_none_of_ne _ _ hnew, NewUser, timeNow,
      AddUser, hau, requestNewOTP_cases, hp, hd, hr, hs, otpsOf, List.filter_append,
      filter_not_filter OTP.PhoneNumber]

theorem publish_failure_keeps_otp_witness :
    ((LoginInitiate brokerDownEnv "+15551234" verifiedWorld).1 =
        .error (.external "amqp: channel closed") ∧
      otpsOf (LoginInitiate brokerDownEnv "+15551234" verifiedWorld).2 "+15551234" =
        [⟨"+15551234", drawnCode brokerDownEnv, 5 + otpValidityDuration⟩] ∧
      (LoginInitiate brokerDownEnv "+15551234" verifiedWorld).2.activities =
        verifiedWorld.activities ∧
      (LoginInitiate brokerDownEnv "+15551234" verifiedWorld).2.published =
        verifiedWorld.published) ∧
    ((SignUpWithPhoneNumber brokerDownEnv "+15550000" verifiedWorld).1 =
        .error (.external "amqp: channel closed") ∧
      otpsOf (SignUpWithPhoneNumber brokerDownEnv "+15550000" verifiedWorld).2 "+15550000" =
        [⟨"+15550000", drawnCode brokerDownEnv, 5 + otpValidityDuration⟩] ∧
      (SignUpWithPhoneNumber brokerDownEnv "+15550000" verifiedWorld).2.activities =
        verifiedWorld.activities ∧
      (SignUpWithPhoneNumber brokerDownEnv "+15550000" verifiedWorld).2.published =
        verifiedWorld.published) :=
  ⟨(publish_failure_keeps_otp brokerDownEnv "+15551234" "amqp: channel closed" verifiedWorld
      rfl rfl rfl rfl).2.1 ⟨"+15551234", true, 1, 2⟩ rfl rfl rfl,
   (publish_failure_keeps_otp brokerDownEnv "+15550000" "amqp: channel closed" verifiedWorld
      rfl rfl rfl rfl).2.2 rfl (by simp [verifiedWorld]) rfl⟩

/-- C10: for a verified User (as the Identity Store returns it) and every
clock, with every store, random-source and channel call going through,
`LoginInitiate` succeeds, leaves exactly one OTP row for the phone number,
expiring five minutes after the clock reading of the issuance, and publishes
exactly one message, on topic `verification`, whose body is the serialized
event of the phone number and the stored code. -/
theorem loginInitiate_issues_one_otp (env : Env) (p : String) (w : World) (u : User)
    (hok : env.allSucceed) (hfu : w.users.find? (fun u => u.PhoneNumber == p) = some u)
    (hv : u.Verified = true) :
    (LoginInitiate env p w).1 = .ok () ∧
    otpsOf (LoginInitiate env p w).2 p =
      [⟨p, drawnCode env, env.clock w.ticks + 5 * 60 * 1000000000⟩] ∧
    ∃ body : String, OTPVerificationEvent.Serialize ⟨p, drawnCode env⟩ = .ok body ∧
      (LoginInitiate env p w).2.published = w.published ++ [⟨"verification", body⟩] := by
  obtain ⟨hgu, _, _, hs, _, hd, hra, hp, hr⟩ := hok
  rw [loginInitiate_ok env p w u hgu hd hr hs hp hra hfu hv]
  refine ⟨rfl, ?_, eventBody p (drawnCode env), rfl, rfl⟩
  simp [otpsOf, List.filter_append, filter_not_filter OTP.PhoneNumber, otpValidityDuration]

theorem loginInitiate_issues_one_otp_witness :
    (LoginInitiate (calmEnv 5) "+15551234" verifiedWorld).1 = .ok () ∧
    otpsOf (LoginInitiate (calmEnv 5) "+15551234" verifiedWorld).2 "+15551234" =
      [⟨"+15551234", drawnCode (calmEnv 5), 5 + 5 * 60 * 1000000000⟩] ∧
    ∃ body : String,
      OTPVerificationEvent.Serialize ⟨"+15551234", drawnCode (calmEnv 5)⟩ = .ok body ∧
      (LoginInitiate (calmEnv 5) "+15551234" verifiedWorld).2.published =
        verifiedWorld.published ++ [⟨"verification", body⟩] :=
  loginInitiate_issues_one_otp (calmEnv 5) "+15551234" verifiedWorld ⟨"+15551234", true, 1, 2⟩
    (by decide) rfl rfl

/-- C11: `ValidatePhoneNumberLogin` never writes the `users` table, whatever
it returns.  With an unexpired OTP record and the matching code (the stores
returning the record and the User), it fails with `ErrUserNotVerified` when
the User is not verified, and when the User is verified (delete and activity
append going through) it succeeds and leaves no OTP row for the phone
number. -/
theorem validateLogin_requires_verified_keeps_user (env : Env) (p otp : String) (w : World) :
    (ValidatePhoneNumberLogin env p otp w).2.users = w.users ∧
    (∀ (o : OTP) (u : User), env.getOTPErr = none →
      w.otps.find? (fun o => o.PhoneNumber == p) = some o →
      env.clock w.ticks ≤ o.Expiration → otp = o.Code → env.getUserErr = none →
      w.users.find? (fun u => u.PhoneNumber == p) = some u →
      (u.Verified = false →
        (ValidatePhoneNumberLogin env p otp w).1 = .error .ErrUserNotVerified) ∧
      (u.Verified = true → env.deleteOTPErr = none → env.recordActivityErr = none →
        (ValidatePhoneNumberLogin env p otp w).1 = .ok () ∧
        otpsOf (ValidatePhoneNumberLogin env p otp w).2 p = [])) := by
  constructor
  · cases hgo : env.getOTPErr with
    | some d => simp [ValidatePhoneNumberLogin, GetOTP, hgo]
    | none =>
      cases hfo : w.otps.find? (fun o => o.PhoneNumber == p) with
      | none => simp [ValidatePhoneNumberLogin, GetOTP, hgo, hfo]
      | some o =>
        by_cases hexp : o.Expiration < env.clock w.ticks
        · simp [ValidatePhoneNumberLogin, GetOTP, hgo, hfo, timeNow, hexp]
        · by_cases hc : o.Code = otp
          · cases hgu : env.getUserErr with
            | some d =>
              simp [ValidatePhoneNumberLogin, GetOTP, hgo, hfo, timeNow, hexp, hc, GetUser, hgu]
            | none =>
              cases hfu : w.users.find? (fun u => u.PhoneNumber == p) with
              | none =>
                simp [ValidatePhoneNumberLogin, GetOTP, hgo, hfo, timeNow, hexp, hc, GetUser, hgu,
                  hfu]
              | some u =>
                cases hv : u.Verified <;> cases hd : env.deleteOTPErr <;>
                  cases hra : env.recordActivityErr <;>
                  simp [ValidatePhoneNumberLogin, GetOTP, hgo, hfo, timeNow, hexp, hc, GetUser,
                    hgu, hfu, User.IsVerified, hv, DeleteOTP, hd, RecordActivity, hra]
          · simp [ValidatePhoneNumberLogin, GetOTP, hgo, hfo, timeNow, hexp, hc]
  · intro o u hgo hfo hnow hc hgu hfu
    subst hc
    constructor
    · intro hv
      simp [ValidatePhoneNumberLogin, GetOTP, hgo, hfo, timeNow, not_lt.mpr hnow, GetUser, hgu,
        hfu, User.IsVerified, hv]
    · intro hv hd hra
      simp [ValidatePhoneNumberLogin, GetOTP, hgo, hfo, timeNow, not_lt.mpr hnow, GetUser, hgu,
        hfu, User.IsVerified, hv, DeleteOTP, hd, RecordActivity, hra, otpsOf,
        filter_not_filter OTP.PhoneNumber]

theorem validateLogin_requires_verified_keeps_user_witness :
    (ValidatePhoneNumberLogin (calmEnv 9) "+15551234" "0a1b2c3d" pendingWorld).1 =
      .error .ErrUserNotVerified ∧
    ((ValidatePhoneNumberLogin (calmEnv 9) "+15551234" "0a1b2c3d" loginPendingWorld).1 = .ok () ∧
      otpsOf (ValidatePhoneNumberLogin (calmEnv 9) "+15551234" "0a1b2c3d" loginPendingWorld).2
        "+15551234" = []) ∧
    (ValidatePhoneNumberLogin (calmEnv 9) "+15551234" "0a1b2c3d" loginPendingWorld).2.users =
      loginPendingWorld.users :=
  ⟨((validateLogin_requires_verified_keeps_user (calmEnv 9) "+15551234" "0a1b2c3d"
      pendingWorld).2 ⟨"+15551234", "0a1b2c3d", 100⟩ ⟨"+15551234", false, 1, 1⟩ rfl rfl
      (by decide) rfl rfl rfl).1 rfl,
   ((validateLogin_requires_verified_keeps_user (calmEnv 9) "+15551234" "0a1b2c3d"
      loginPendingWorld).2 ⟨"+15551234", "0a1b2c3d", 100⟩ ⟨"+15551234", true, 1, 2⟩ rfl rfl
      (by decide) rfl rfl rfl).2 rfl rfl rfl,
   (validateLogin_requires_verified_keeps_user (calmEnv 9) "+15551234" "0a1b2c3d"
      loginPendingWorld).1⟩

/-- C12, as amended: for a phone number whose stored OTP record (as the
Credential Store returns it) has expired at the clock reading of the call,
`VerifyPhoneNumber` and `ValidatePhoneNumberLogin` fail with `ErrOTPExpired`
and write nothing: the expired record stays in the `otps` table. -/
theorem expired_attempt_leaves_record (env : Env) (p code : String) (w : World) (o : OTP)
    (hget : env.getOTPErr = none)
    (ho : w.otps.find? (fun o => o.PhoneNumber == p) = some o)
    (hexp : o.Expiration < env.clock w.ticks) :
    VerifyPhoneNumber env p code w = (.error .ErrOTPExpired, { w with ticks := w.ticks + 1 }) ∧
    ValidatePhoneNumberLogin env p code w =
      (.error .ErrOTPExpired, { w with ticks := w.ticks + 1 }) ∧
    otpsOf (VerifyPhoneNumber env p code w).2 p = otpsOf w p ∧
    otpsOf (ValidatePhoneNumberLogin env p code w).2 p = otpsOf w p ∧
    o ∈ otpsOf w p := by
  have h1 : VerifyPhoneNumber env p code w =
      (.error .ErrOTPExpired, { w with ticks := w.ticks + 1 }) := by
    simp [VerifyPhoneNumber, GetOTP, hget, ho, timeNow, hexp]
  have h2 : ValidatePhoneNumberLogin env p code w =
      (.error .ErrOTPExpired, { w with ticks := w.ticks + 1 }) := by
    simp [ValidatePhoneNumberLogin, GetOTP, hget, ho, timeNow, hexp]
  refine ⟨h1, h2, by rw [h1]; rfl, by rw [h2]; rfl, ?_⟩
  have hp : o.PhoneNumber = p := by simpa using List.find?_some ho
  exact List.mem_filter.mpr ⟨List.mem_of_find?_eq_some ho, by simp [hp]⟩

theorem expired_attempt_leaves_record_witness :
    VerifyPhoneNumber (calmEnv 101) "+15551234" "0a1b2c3d" pendingWorld =
      (.error .ErrOTPExpired, { pendingWorld with ticks := pendingWorld.ticks + 1 }) ∧
    ValidatePhoneNumberLogin (calmEnv 101) "+15551234" "0a1b2c3d" pendingWorld =
      (.error .ErrOTPExpired, { pendingWorld with ticks := pendingWorld.ticks + 1 }) ∧
    otpsOf (VerifyPhoneNumber (calmEnv 101) "+15551234" "0a1b2c3d" pendingWorld).2 "+15551234" =
      otpsOf pendingWorld "+15551234" ∧
    otpsOf (ValidatePhoneNumberLogin (calmEnv 101) "+15551234" "0a1b2c3d" pendingWorld).2
      "+15551234" = otpsOf pendingWorld "+15551234" ∧
    (⟨"+15551234", "0a1b2c3d", 100⟩ : OTP) ∈ otpsOf pendingWorld "+15551234" :=
  expired_attempt_leaves_record (calmEnv 101) "+15551234" "0a1b2c3d" pendingWorld
    ⟨"+15551234", "0a1b2c3d", 100⟩ rfl rfl (by decide)

/-- C12, as stated, fails: the record of `pendingWorld` expires at instant
100; at instant 101 both verification calls fail with `ErrOTPExpired`, and
the expired record is still the OTP row of the phone number afterwards. -/
theorem expired_attempt_does_not_delete :
    (VerifyPhoneNumber (calmEnv 101) "+15551234" "0a1b2c3d" pendingWorld).1 =
      .error .ErrOTPExpired ∧
    otpsOf (VerifyPhoneNumber (calmEnv 101) "+15551234" "0a1b2c3d" pendingWorld).2 "+15551234" =
      [⟨"+15551234", "0a1b2c3d", 100⟩] ∧
    (ValidatePhoneNumberLogin (calmEnv 101) "+15551234" "0a1b2c3d" pendingWorld).1 =
      .error .ErrOTPExpired ∧
    otpsOf (ValidatePhoneNumberLogin (calmEnv 101) "+15551234" "0a1b2c3d" pendingWorld).2
      "+15551234" = [⟨"+15551234", "0a1b2c3d", 100⟩] :=
  ⟨rfl, rfl, rfl, rfl⟩

/-- C14, as amended: for a phone number whose User (as the Identity Store
returns it) is already verified, `VerifyPhoneNumber` changes the `users`
table exactly when it gets as far as persisting the User (`persistsUser`),
which it does whenever it succeeds and also when the later delete or
activity append fails.  It then runs the update of the phone number with the
clock reading taken in `Verify`, which leaves the User verified and rewrites
only its `UpdatedAt`; in every other case, a wrong code among them, the
`users` table is exactly as it was. -/
theorem verify_of_verified_user_rewrites_updatedAt (env : Env) (p code : String) (w : World)
    (u : User) (hfu : w.users.find? (fun u => u.PhoneNumber == p) = some u)
    (hv : u.Verified = true) :
    (persistsUser env p code w →
      (VerifyPhoneNumber env p code w).2.users =
        markVerified w.users p (env.clock (w.ticks + 1)) ∧
      (VerifyPhoneNumber env p code w).2.users.find? (fun u => u.PhoneNumber == p) =
        some { u with UpdatedAt := env.clock (w.ticks + 1) }) ∧
    (¬ persistsUser env p code w → (VerifyPhoneNumber env p code w).2.users = w.users) ∧
    ((VerifyPhoneNumber env p code w).1 = .ok () → persistsUser env p code w) := by
  have hup := (mem_of_find? _ _ _ hfu).2
  have hrow : (markVerified w.users p (env.clock (w.ticks + 1))).find?
      (fun u => u.PhoneNumber == p) = some { u with UpdatedAt := env.clock (w.ticks + 1) } := by
    rw [find?_markVerified, hfu]
    cases u
    simp_all
  have hcases : (persistsUser env p code w →
        (VerifyPhoneNumber env p code w).2.users =
          markVerified w.users p (env.clock (w.ticks + 1))) ∧
      (¬ persistsUser env p code w → (VerifyPhoneNumber env p code w).2.users = w.users) ∧
      ((VerifyPhoneNumber env p code w).1 = .ok () → persistsUser env p code w) := by
    unfold persistsUser
    cases hgo : env.getOTPErr with
    | some d => simp [VerifyPhoneNumber, GetOTP, hgo]
    | none =>
      cases hfo : w.otps.find? (fun o => o.PhoneNumber == p) with
      | none => simp [VerifyPhoneNumber, GetOTP, hgo, hfo]
      | some o =>
        by_cases hexp : o.Expiration < env.clock w.ticks
        · simp [VerifyPhoneNumber, GetOTP, hgo, hfo, timeNow, hexp]
        · by_cases hc : o.Code = code
          · cases hgu : env.getUserErr with
            | some d => simp [VerifyPhoneNumber, GetOTP, hgo, hfo, timeNow, hexp, hc, GetUser, hgu]
            | none =>
              cases huu : env.updateUserErr <;> cases hd : env.deleteOTPErr <;>
                cases hra : env.recordActivityErr <;>
                simp [VerifyPhoneNumber, GetOTP, hgo, hfo, timeNow, hexp, hc, GetUser, hgu, hfu,
                  User.Verify, UpdateUser, huu, DeleteOTP, hd, RecordActivity, hra, hup,
                  markVerified, not_lt.mp hexp]
          · simp [VerifyPhoneNumber, GetOTP, hgo, hfo, timeNow, hexp, hc]
  refine ⟨fun hper => ⟨hcases.1 hper, ?_⟩, hcases.2.1, hcases.2.2⟩
  rw [hcases.1 hper, hrow]

theorem verify_of_verified_user_rewrites_updatedAt_witness :
    ((VerifyPhoneNumber deleteDownEnv "+15551234" "0a1b2c3d" loginPendingWorld).2.users =
        markVerified loginPendingWorld.users "+15551234" 50 ∧
      (VerifyPhoneNumber deleteDownEnv "+15551234" "0a1b2c3d" loginPendingWorld).2.users.find?
        (fun u => u.PhoneNumber == "+15551234") = some ⟨"+15551234", true, 1, 50⟩) ∧
    (VerifyPhoneNumber (calmEnv 9) "+15551234" "ffffffff" loginStartedWorld).2.users =
      loginStartedWorld.users :=
  ⟨(verify_of_verified_user_rewrites_updatedAt deleteDownEnv "+15551234" "0a1b2c3d"
      loginPendingWorld ⟨"+15551234", true, 1, 2⟩ rfl rfl).1
      ⟨rfl, ⟨⟨"+15551234", "0a1b2c3d", 100⟩, rfl, by decide, rfl⟩, rfl, rfl⟩,
   (verify_of_verified_user_rewrites_updatedAt (calmEnv 9) "+15551234" "ffffffff"
      loginStartedWorld ⟨"+15551234", true, 1, 2⟩ rfl rfl).2.1
      (by
        rintro ⟨_, ⟨o, ho, _, hc⟩, _⟩
        have h2 : loginStartedWorld.otps.find? (fun o => o.PhoneNumber == "+15551234") =
            some ⟨"+15551234", "00000000", 5 + otpValidityDuration⟩ := rfl
        rw [h2] at ho
        cases ho
        exact absurd hc (by decide))⟩

/-- C14, as stated, fails: the user of `loginStartedWorld` is verified, last
updated at instant 2, and holds the unexpired code `00000000` issued by
`LoginInitiate`; `VerifyPhoneNumber` with that code at instant 9 succeeds and
leaves the User row with `UpdatedAt = 9`. -/
theorem verify_of_verified_user_changes_row :
    usersOf loginStartedWorld "+15551234" = [⟨"+15551234", true, 1, 2⟩] ∧
    otpsOf loginStartedWorld "+15551234" = [⟨"+15551234", "00000000", 5 + otpValidityDuration⟩] ∧
    (VerifyPhoneNumber (calmEnv 9) "+15551234" "00000000" loginStartedWorld).1 = .ok () ∧
    usersOf (VerifyPhoneNumber (calmEnv 9) "+15551234" "00000000" loginStartedWorld).2
      "+15551234" = [⟨"+15551234", true, 1, 9⟩] :=
  ⟨rfl, rfl, rfl, rfl⟩

/-- C15 on the code: the `users` lookup fails with a driver error for a phone
number that has a verified User; `GetUser` answers the driver error and
`GetProfile` returns it, but `LoginInitiate` returns `ErrUserNotFound`. -/
theorem loginInitiate_masks_lookup_failure :
    (GetUser usersDownEnv "+15551234" verifiedWorld).1 =
      .error (.external "users: connection refused") ∧
    (GetProfile usersDownEnv "+15551234" verifiedWorld).1 =
      .error (.external "users: connection refused") ∧
    LoginInitiate usersDownEnv "+15551234" verifiedWorld =
      (.error .ErrUserNotFound, verifiedWorld) :=
  ⟨rfl, rfl, rfl⟩

/-- C16: when the activity append fails after the calls before it went
through, the call returns that failure and what it wrote stays.  For
`VerifyPhoneNumber` with the stored, unexpired code: the rows of the phone
number are verified and its OTP rows are gone.  For `SignUpWithPhoneNumber`
of a new phone number: the User row and the OTP row are there and the event
was published.  No activity record was appended. -/
theorem activity_failure_keeps_mutation (env : Env) (p d : String) (w : World)
    (hra : env.recordActivityErr = some d) :
    (∀ o : OTP, env.getOTPErr = none →
      w.otps.find? (fun o => o.PhoneNumber == p) = some o →
      env.clock w.ticks ≤ o.Expiration → env.getUserErr = none →
      (∃ u ∈ w.users, u.PhoneNumber = p) → env.updateUserErr = none →
      env.deleteOTPErr = none →
      (VerifyPhoneNumber env p o.Code w).1 = .error (.external d) ∧
      (∃ u : User, (VerifyPhoneNumber env p o.Code w).2.users.find?
          (fun u => u.PhoneNumber == p) = some u ∧ u.Verified = true) ∧
      (∀ u ∈ usersOf (VerifyPhoneNumber env p o.Code w).2 p, u.Verified = true) ∧
      otpsOf (VerifyPhoneNumber env p o.Code w).2 p = [] ∧
      (VerifyPhoneNumber env p o.Code w).2.activities = w.activities) ∧
    (env.getUserErr = none → (∀ u ∈ w.users, u.PhoneNumber ≠ p) → env.addUserErr = none →
      env.deleteOTPErr = none → env.randErr = none → env.storeOTPErr = none →
      env.publishErr = none →
      (SignUpWithPhoneNumber env p w).1 = .error (.external d) ∧
      usersOf (SignUpWithPhoneNumber env p w).2 p =
        [⟨p, false, env.clock w.ticks, env.clock (w.ticks + 1)⟩] ∧
      otpsOf (SignUpWithPhoneNumber env p w).2 p =
        [⟨p, drawnCode env, env.clock (w.ticks + 2) + otpValidityDuration⟩] ∧
      (SignUpWithPhoneNumber env p w).2.published =
        w.published ++ [⟨"verification", eventBody p (drawnCode env)⟩] ∧
      (SignUpWithPhoneNumber env p w).2.activities = w.activities) := by
  constructor
  · intro o hgo hfo hnow hgu hu huu hd
    obtain ⟨u, hfu, hup⟩ := find?_some_of_mem _ _ hu
    have hrun : VerifyPhoneNumber env p o.Code w = (.error (.external d),
        { users := markVerified w.users p (env.clock (w.ticks + 1)),
          otps := w.otps.filter fun o => !(o.PhoneNumber == p),
          activities := w.activities, published := w.published, ticks := w.ticks + 3 }) := by
      simp [VerifyPhoneNumber, GetOTP, hgo, hfo, timeNow, not_lt.mpr hnow, GetUser, hgu, hfu,
        User.Verify, UpdateUser, huu, DeleteOTP, hd, RecordActivity, hra, hup, markVerified]
    rw [hrun]
    refine ⟨rfl, ⟨_, by simp only [find?_markVerified, hfu]; rfl, rfl⟩, ?_, ?_, rfl⟩
    · intro x hx
      simp only [usersOf, markVerified, List.mem_filter, List.mem_map] at hx
      obtain ⟨⟨y, _, hy⟩, hxp⟩ := hx
      by_cases hyp : y.PhoneNumber = p
      · simp [hyp] at hy; rw [← hy]
      · simp [hyp] at hy; subst hy; simp [hyp] at hxp
    · simp [otpsOf, filter_not_filter OTP.PhoneNumber]
  · intro hgu hnew hau hd hr hs hp
    simp [SignUpWithPhoneNumber, GetUser, hgu, find?_eq_none_of_ne _ _ hnew, NewUser, timeNow,
      AddUser, hau, requestNewOTP_ok env p _ hd hr hs hp, RecordActivity, hra, usersOf, otpsOf,
      List.filter_append, filter_eq_nil_of_ne User.PhoneNumber _ p hnew,
      filter_not_filter OTP.PhoneNumber]

theorem activity_failure_keeps_mutation_witness :
    ((VerifyPhoneNumber activityDownEnv "+15551234" "0a1b2c3d" pendingWorld).1 =
        .error (.external "activities: connection refused") ∧
      (∀ u ∈ usersOf (VerifyPhoneNumber activityDownEnv "+15551234" "0a1b2c3d" pendingWorld).2
          "+15551234", u.Verified = true) ∧
      otpsOf (VerifyPhoneNumber activityDownEnv "+15551234" "0a1b2c3d" pendingWorld).2
          "+15551234" = []) ∧
    ((SignUpWithPhoneNumber activityDownEnv "+15550000" pendingWorld).1 =
        .error (.external "activities: connection refused") ∧
      usersOf (SignUpWithPhoneNumber activityDownEnv "+15550000" pendingWorld).2 "+15550000" =
        [⟨"+15550000", false, 50, 50⟩] ∧
      otpsOf (SignUpWithPhoneNumber activityDownEnv "+15550000" pendingWorld).2 "+15550000" =
        [⟨"+15550000", drawnCode activityDownEnv, 50 + otpValidityDuration⟩] ∧
      (SignUpWithPhoneNumber activityDownEnv "+15550000" pendingWorld).2.published =
        pendingWorld.published ++
          [⟨"verification", eventBody "+15550000" (drawnCode activityDownEnv)⟩]) :=
  have h := activity_failure_keeps_mutation activityDownEnv "+15551234"
    "activities: connection refused" pendingWorld rfl
  have h1 := h.1 ⟨"+15551234", "0a1b2c3d", 100⟩ rfl rfl (by decide) rfl
    ⟨⟨"+15551234", false, 1, 1⟩, by simp [pendingWorld], rfl⟩ rfl rfl
  have h2 := (activity_failure_keeps_mutation activityDownEnv "+15550000"
    "activities: connection refused" pendingWorld rfl).2 rfl (by simp [pendingWorld]) rfl rfl
    rfl rfl rfl
  ⟨⟨h1.1, h1.2.2.1, h1.2.2.2.1⟩, ⟨h2.1, h2.2.1, h2.2.2.1, h2.2.2.2.1⟩⟩

/-- C19, as amended: in `VerifyPhoneNumber` the User is marked verified and
persisted before the OTP record is deleted.  With the stored, unexpired code
and a failing delete (the calls before it going through), the call returns
the delete failure, the rows of the phone number are already verified, and
the OTP rows and the activity log are as they were. -/
theorem delete_failure_after_user_verified (env : Env) (p d : String) (w : World) (o : OTP)
    (hd : env.deleteOTPErr = some d) (hgo : env.getOTPErr = none)
    (hfo : w.otps.find? (fun o => o.PhoneNumber == p) = some o)
    (hnow : env.clock w.ticks ≤ o.Expiration) (hgu : env.getUserErr = none)
    (hu : ∃ u ∈ w.users, u.PhoneNumber = p) (huu : env.updateUserErr = none) :
    VerifyPhoneNumber env p o.Code w = (.error (.external d),
      { w with users := markVerified w.users p (env.clock (w.ticks + 1)),
               ticks := w.ticks + 2 }) ∧
    ∃ u : User, (markVerified w.users p (env.clock (w.ticks + 1))).find?
      (fun u => u.PhoneNumber == p) = some u ∧ u.Verified = true := by
  obtain ⟨u, hfu, hup⟩ := find?_some_of_mem _ _ hu
  constructor
  · simp [VerifyPhoneNumber, GetOTP, hgo, hfo, timeNow, not_lt.mpr hnow, GetUser, hgu, hfu,
      User.Verify, UpdateUser, huu, DeleteOTP, hd, hup, markVerified]
  · exact ⟨_, by simp only [find?_markVerified, hfu]; rfl, rfl⟩

theorem delete_failure_after_user_verified_witness :
    VerifyPhoneNumber deleteDownEnv "+15551234" "0a1b2c3d" pendingWorld =
      (.error (.external "otps: connection refused"),
        { pendingWorld with users := markVerified pendingWorld.users "+15551234" 50,
                            ticks := pendingWorld.ticks + 2 }) ∧
    ∃ u : User, (markVerified pendingWorld.users "+15551234" 50).find?
      (fun u => u.PhoneNumber == "+15551234") = some u ∧ u.Verified = true :=
  delete_failure_after_user_verified deleteDownEnv "+15551234" "otps: connection refused"
    pendingWorld ⟨"+15551234", "0a1b2c3d", 100⟩ rfl rfl rfl (by decide) rfl
    ⟨⟨"+15551234", false, 1, 1⟩, by simp [pendingWorld], rfl⟩ rfl

/-- C19, as stated, fails: with the stored, unexpired code of `pendingWorld`
and a failing delete, `VerifyPhoneNumber` returns the delete failure, yet the
User row, unverified before, is verified afterwards; the OTP row is still
there. -/
theorem delete_failure_leaves_user_verified :
    usersOf pendingWorld "+15551234" = [⟨"+15551234", false, 1, 1⟩] ∧
    (VerifyPhoneNumber deleteDownEnv "+15551234" "0a1b2c3d" pendingWorld).1 =
      .error (.external "otps: connection refused") ∧
    usersOf (VerifyPhoneNumber deleteDownEnv "+15551234" "0a1b2c3d" pendingWorld).2
      "+15551234" = [⟨"+15551234", true, 1, 50⟩] ∧
    otpsOf (VerifyPhoneNumber deleteDownEnv "+15551234" "0a1b2c3d" pendingWorld).2
      "+15551234" = [⟨"+15551234", "0a1b2c3d", 100⟩] :=
  ⟨rfl, rfl, rfl, rfl⟩

/-- C13: when the random source delivers its 4 bytes, `generateOTP` returns a
string of exactly 8 characters, each of `0123456789abcdef`, which is the
lowercase hexadecimal encoding of the 4 bytes (two characters per byte, high
nibble first); a draw that gives the same code delivered the same 4 bytes. -/
theorem generateOTP_is_lower_hex (env : Env) (h : env.randErr = none) :
    ∃ s : String, generateOTP env = .ok s ∧ s.length = 8 ∧
      (∀ c ∈ s.toList, c ∈ "0123456789abcdef".toList) ∧
      s.toList = lowerHex [env.randBytes 0, env.randBytes 1, env.randBytes 2, env.randBytes 3] ∧
      ∀ env2 : Env, env2.randErr = none → generateOTP env2 = .ok s →
        ∀ i : Nat, i < 4 → env2.randBytes i = env.randBytes i := by
  refine ⟨drawnCode env, generateOTP_ok env h, ?_, ?_, ?_, ?_⟩
  · rw [String.length, ← String.toList, drawnCode_toList]; rfl
  · intro c hc
    rw [drawnCode_toList] at hc
    simp only [List.mem_cons, List.mem_singleton, List.not_mem_nil, or_false] at hc
    rcases hc with rfl | rfl | rfl | rfl | rfl | rfl | rfl | rfl <;>
      first
      | exact hexDigit_mem _ (byte_hi_lt _)
      | exact hexDigit_mem _ (byte_lo_lt _)
  · rw [drawnCode_toList]
    simp [lowerHex, hexDigit_eq_lower, byte_hi_lt, byte_lo_lt]
  · intro env2 h2 heq i hi
    rw [generateOTP_ok env2 h2] at heq
    have hs : (drawnCode env2).toList = (drawnCode env).toList := by
      have : drawnCode env2 = drawnCode env := by injection heq
      rw [this]
    rw [drawnCode_toList, drawnCode_toList] at hs
    simp only [List.cons.injEq, and_true] at hs
    obtain ⟨a0, a1, b0, b1, c0, c1, d0, d1⟩ := hs
    interval_cases i
    · exact byte_eq_of_digits _ _ a0 a1
    · exact byte_eq_of_digits _ _ b0 b1
    · exact byte_eq_of_digits _ _ c0 c1
    · exact byte_eq_of_digits _ _ d0 d1

theorem generateOTP_is_lower_hex_witness :
    ∃ s : String, generateOTP calmEnvOnes = .ok s ∧ s.length = 8 ∧
      (∀ c ∈ s.toList, c ∈ "0123456789abcdef".toList) ∧
      s.toList = lowerHex [calmEnvOnes.randBytes 0, calmEnvOnes.randBytes 1,
        calmEnvOnes.randBytes 2, calmEnvOnes.randBytes 3] ∧
      ∀ env2 : Env, env2.randErr = none → generateOTP env2 = .ok s →
        ∀ i : Nat, i < 4 → env2.randBytes i = calmEnvOnes.randBytes i :=
  generateOTP_is_lower_hex calmEnvOnes rfl

/-- C20, as amended: each successful orchestrator call appends exactly one
activity record, for its phone number, to the end of the log.  The kind is
`signup` for `SignUpWithPhoneNumber`, `verify` for `VerifyPhoneNumber`,
`login` for both `LoginInitiate` and `ValidatePhoneNumberLogin`, and `update`
for `GetProfile`; `login` differs from the other three. -/
theorem success_appends_one_activity (env : Env) (p otp : String) (w : World) :
    ((SignUpWithPhoneNumber env p w).1 = .ok () → ∃ t : Time,
      (SignUpWithPhoneNumber env p w).2.activities =
        w.activities ++ [⟨p, .ActivitySignup, t⟩]) ∧
    ((VerifyPhoneNumber env p otp w).1 = .ok () → ∃ t : Time,
      (VerifyPhoneNumber env p otp w).2.activities =
        w.activities ++ [⟨p, .ActivityVerify, t⟩]) ∧
    ((LoginInitiate env p w).1 = .ok () → ∃ t : Time,
      (LoginInitiate env p w).2.activities = w.activities ++ [⟨p, .ActivityLogin, t⟩]) ∧
    ((ValidatePhoneNumberLogin env p otp w).1 = .ok () → ∃ t : Time,
      (ValidatePhoneNumberLogin env p otp w).2.activities =
        w.activities ++ [⟨p, .ActivityLogin, t⟩]) ∧
    ((∃ u : User, (GetProfile env p w).1 = .ok u) → ∃ t : Time,
      (GetProfile env p w).2.activities = w.activities ++ [⟨p, .ActivityUpdate, t⟩]) ∧
    ActivityType.ActivityLogin ≠ ActivityType.ActivitySignup ∧
    ActivityType.ActivityLogin ≠ ActivityType.ActivityVerify ∧
    ActivityType.ActivityLogin ≠ ActivityType.ActivityUpdate := by
  refine ⟨?_, ?_, ?_, ?_, ?_, by decide, by decide, by decide⟩
  · cases hgu : env.getUserErr with
    | some d => simp [SignUpWithPhoneNumber, GetUser, hgu]
    | none =>
      cases hfu : w.users.find? (fun u => u.PhoneNumber == p) with
      | some u => simp [SignUpWithPhoneNumber, GetUser, hgu, hfu]
      | none =>
        cases hau : env.addUserErr with
        | some d => simp [SignUpWithPhoneNumber, GetUser, hgu, hfu, NewUser, timeNow, AddUser, hau]
        | none =>
          simp only [SignUpWithPhoneNumber, GetUser, hgu, hfu, NewUser, timeNow, AddUser, hau,
            requestNewOTP_cases, RecordActivity]
          cases env.deleteOTPErr <;> cases env.randErr <;> cases env.storeOTPErr <;>
            cases env.publishErr <;> cases env.recordActivityErr <;> simp
  · cases hgo : env.getOTPErr with
    | some d => simp [VerifyPhoneNumber, GetOTP, hgo]
    | none =>
      cases hfo : w.otps.find? (fun o => o.PhoneNumber == p) with
      | none => simp [VerifyPhoneNumber, GetOTP, hgo, hfo]
      | some o =>
        by_cases hexp : o.Expiration < env.clock w.ticks
        · simp [VerifyPhoneNumber, GetOTP, hgo, hfo, timeNow, hexp]
        · by_cases hc : o.Code = otp
          · cases hgu : env.getUserErr <;>
            cases hfu : w.users.find? (fun u => u.PhoneNumber == p) <;>
            cases huu : env.updateUserErr <;> cases hd : env.deleteOTPErr <;>
            cases hra : env.recordActivityErr <;>
            simp [VerifyPhoneNumber, GetOTP, hgo, hfo, timeNow, hexp, hc, GetUser, hgu, hfu,
              User.Verify, UpdateUser, huu, DeleteOTP, hd, RecordActivity, hra]
          · simp [VerifyPhoneNumber, GetOTP, hgo, hfo, timeNow, hexp, hc]
  · cases hgu : env.getUserErr with
    | some d => simp [LoginInitiate, GetUser, hgu]
    | none =>
      cases hfu : w.users.find? (fun u => u.PhoneNumber == p) with
      | none => simp [LoginInitiate, GetUser, hgu, hfu]
      | some u =>
        cases hv : u.Verified with
        | false => simp [LoginInitiate, GetUser, hgu, hfu, User.IsVerified, hv]
        | true =>
          simp only [LoginInitiate, GetUser, hgu, hfu, User.IsVerified, hv, timeNow,
            requestNewOTP_cases, RecordActivity]
          cases env.deleteOTPErr <;> cases env.randErr <;> cases env.storeOTPErr <;>
            cases env.publishErr <;> cases env.recordActivityErr <;> simp
  · cases hgo : env.getOTPErr with
    | some d => simp [ValidatePhoneNumberLogin, GetOTP, hgo]
    | none =>
      cases hfo : w.otps.find? (fun o => o.PhoneNumber == p) with
      | none => simp [ValidatePhoneNumberLogin, GetOTP, hgo, hfo]
      | some o =>
        by_cases hexp : o.Expiration < env.clock w.ticks
        · simp [ValidatePhoneNumberLogin, GetOTP, hgo, hfo, timeNow, hexp]
        · by_cases hc : o.Code = otp
          · cases hgu : env.getUserErr with
            | some d =>
              simp [ValidatePhoneNumberLogin, GetOTP, hgo, hfo, timeNow, hexp, hc, GetUser, hgu]
            | none =>
              cases hfu : w.users.find? (fun u => u.PhoneNumber == p) with
              | none =>
                simp [ValidatePhoneNumberLogin, GetOTP, hgo, hfo, timeNow, hexp, hc, GetUser,
                  hgu, hfu]
              | some u =>
                cases hv : u.Verified <;> cases hd : env.deleteOTPErr <;>
                  cases hra : env.recordActivityErr <;>
                  simp [ValidatePhoneNumberLogin, GetOTP, hgo, hfo, timeNow, hexp, hc, GetUser,
                    hgu, hfu, User.IsVerified, hv, DeleteOTP, hd, RecordActivity, hra]
          · simp [ValidatePhoneNumberLogin, GetOTP, hgo, hfo, timeNow, hexp, hc]
  · cases hgu : env.getUserErr <;> cases hfu : w.users.find? (fun u => u.PhoneNumber == p) <;>
      cases hra : env.recordActivityErr <;>
      simp [GetProfile, GetUser, hgu, hfu, timeNow, RecordActivity, hra]

theorem success_appends_one_activity_witness :
    (∃ t : Time, (LoginInitiate (calmEnv 5) "+15551234" verifiedWorld).2.activities =
      verifiedWorld.activities ++ [⟨"+15551234", .ActivityLogin, t⟩]) ∧
    (∃ t : Time,
      (ValidatePhoneNumberLogin (calmEnv 9) "+15551234" "0a1b2c3d" loginPendingWorld).2.activities =
        loginPendingWorld.activities ++ [⟨"+15551234", .ActivityLogin, t⟩]) :=
  ⟨(success_appends_one_activity (calmEnv 5) "+15551234" "" verifiedWorld).2.2.1 rfl,
   (success_appends_one_activity (calmEnv 9) "+15551234" "0a1b2c3d" loginPendingWorld).2.2.2.1
     rfl⟩

/-- C20, as stated, fails: a successful `LoginInitiate` and a successful
`ValidatePhoneNumberLogin` append a record of the same kind, `login`. -/
theorem login_initiate_and_complete_log_same_kind :
    (LoginInitiate (calmEnv 5) "+15551234" verifiedWorld).1 = .ok () ∧
    (LoginInitiate (calmEnv 5) "+15551234" verifiedWorld).2.activities =
      verifiedWorld.activities ++ [⟨"+15551234", .ActivityLogin, 5⟩] ∧
    (ValidatePhoneNumberLogin (calmEnv 9) "+15551234" "0a1b2c3d" loginPendingWorld).1 = .ok () ∧
    (ValidatePhoneNumberLogin (calmEnv 9) "+15551234" "0a1b2c3d" loginPendingWorld).2.activities =
      loginPendingWorld.activities ++ [⟨"+15551234", .ActivityLogin, 9⟩] :=
  ⟨rfl, rfl, rfl, rfl⟩

/-- C17: for every phone number and code, `Serialize` returns the text
`eventBody`, which the scanner reads as one JSON value, an object whose keys
are exactly `phoneNumber` and `otpCode`, and from which `DeserializeOTPEvent`
of the OTP service returns the event with that phone number and that code. -/
theorem event_survives_boundary (phone code : String) :
    OTPVerificationEvent.Serialize ⟨phone, code⟩ = .ok (eventBody phone code) ∧
    (scanAll (eventBody phone code)).mode = .endTop ∧
    (scanAll (eventBody phone code)).keys = ["phoneNumber", "otpCode"] ∧
    DeserializeOTPEvent (eventBody phone code) = .ok ⟨phone, code⟩ := by
  have hscan : scanAll (eventBody phone code) =
      { mode := .endTop, stack := [], keys := ["phoneNumber", "otpCode"],
        event := ⟨phone, code⟩, mismatch := false } := by
    show step (List.foldl step Scan.start ("\x7b\"phoneNumber\":".toList ++ jsonString phone ++
      ",\"otpCode\":".toList ++ jsonString code ++ "\x7d".toList)) ' ' = _
    simp only [List.foldl_append]
    have h1 : "\x7b\"phoneNumber\":".toList.foldl step Scan.start =
        { mode := .beginValue, stack := [.parseObjectValue], keys := ["phoneNumber"],
          event := ⟨"", ""⟩, mismatch := false } := rfl
    rw [h1, quoted_reads_back phone _ rfl]
    have h2 : ",\"otpCode\":".toList.foldl step
        { ({ mode := .beginValue, stack := [.parseObjectValue], keys := ["phoneNumber"],
              event := ⟨"", ""⟩, mismatch := false } : Scan).noteString phone with
          mode := .endValue } =
        { mode := .beginValue, stack := [.parseObjectValue], keys := ["phoneNumber", "otpCode"],
          event := ⟨phone, ""⟩, mismatch := false } := rfl
    rw [h2, quoted_reads_back code _ rfl]
    rfl
  refine ⟨rfl, by rw [hscan], by rw [hscan], ?_⟩
  simp [DeserializeOTPEvent, Unmarshal, hscan]

/-- C18: for every payload and whatever the delivery provider and `Ack`
answer, `handleOTPEvent` returns, having called the provider exactly once
with the decoded phone number and code when the payload decodes to an event
and not at all otherwise, so never twice, also when the provider call fails;
the consumer loop then calls `Ack` once for the delivery and makes no further
provider call. -/
theorem handler_calls_provider_at_most_once (pv : Provider) (message : String) (d : Dispatch) :
    (handleOTPEvent pv message d).sent = d.sent ++ providerCalls message ∧
    (providerCalls message).length ≤ 1 ∧
    (∀ event : OTPVerificationEvent, DeserializeOTPEvent message = .ok event →
      (handleOTPEvent pv message d).sent = d.sent ++ [(event.PhoneNumber, event.OTPCode)]) ∧
    (∀ err : JsonError, DeserializeOTPEvent message = .error err →
      (handleOTPEvent pv message d).sent = d.sent) ∧
    (handleOTPEvent pv message d).acks = d.acks ∧
    (consumeOne pv message d).sent = (handleOTPEvent pv message d).sent ∧
    (consumeOne pv message d).acks = d.acks + 1 := by
  have hs : (handleOTPEvent pv message d).sent = d.sent ++ providerCalls message ∧
      (handleOTPEvent pv message d).acks = d.acks := by
    unfold handleOTPEvent providerCalls
    cases DeserializeOTPEvent message with
    | error err => simp
    | ok event => cases hse : pv.sendErr <;> simp [SendOTP, hse]
  have hc : (consumeOne pv message d).sent = (handleOTPEvent pv message d).sent ∧
      (consumeOne pv message d).acks = (handleOTPEvent pv message d).acks + 1 := by
    unfold consumeOne
    cases pv.ackErr <;> simp
  refine ⟨hs.1, ?_, ?_, ?_, hs.2, hc.1, by rw [hc.2, hs.2]⟩
  · unfold providerCalls
    cases DeserializeOTPEvent message <;> simp
  · intro event h
    rw [hs.1]; simp [providerCalls, h]
  · intro err h
    rw [hs.1]; simp [providerCalls, h]

theorem handler_calls_provider_at_most_once_witness :
    (handleOTPEvent failingProvider samplePayload Dispatch.idle).sent =
      Dispatch.idle.sent ++ [("+15551234", "0a1b2c3d")] ∧
    (handleOTPEvent failingProvider "+15551234 0a1b2c3d" Dispatch.idle).sent =
      Dispatch.idle.sent ∧
    (consumeOne failingProvider samplePayload Dispatch.idle).acks = Dispatch.idle.acks + 1 :=
  have h := handler_calls_provider_at_most_once failingProvider samplePayload Dispatch.idle
  ⟨h.2.2.1 ⟨"+15551234", "0a1b2c3d"⟩ rfl,
   (handler_calls_provider_at_most_once failingProvider "+15551234 0a1b2c3d"
     Dispatch.idle).2.2.2.1 .malformed rfl,
   h.2.2.2.2.2.2⟩

/-- C21: starting from any world whose `otps` table is empty, every sequence
of `SignUpWithPhoneNumber`, `LoginInitiate`, `VerifyPhoneNumber`,
`ValidatePhoneNumberLogin` and `GetProfile` calls leaves at most one OTP row
for every phone number, `StoreOTP` being a plain insert; this holds whether
the store calls of the sequence succeed or not. -/
theorem at_most_one_otp_per_phone (steps : List (Env × Call)) (w0 : World)
    (h0 : w0.otps = []) (q : String) : (otpsOf (runCalls steps w0) q).length ≤ 1 := by
  apply runCalls_atMostOne steps w0
  intro q
  simp [otpsOf, h0]

theorem at_most_one_otp_per_phone_witness :
    (otpsOf (runCalls sampleRun World.empty) "+15551234").length ≤ 1 :=
  at_most_one_otp_per_phone sampleRun World.empty rfl "+15551234"

/-- C22: a call on a phone number, whatever it returns, leaves the User rows
and the OTP rows of every other phone number as they were, and what it
appends to the activity log (at most one record) and publishes (at most one
message) does not name the other phone number. -/
theorem other_phone_untouched (env : Env) (c : Call) (w : World) (q : String)
    (hq : q ≠ c.phone) :
    usersOf (c.run env w) q = usersOf w q ∧
    otpsOf (c.run env w) q = otpsOf w q ∧
    (∃ acts : List Activity, (c.run env w).activities = w.activities ++ acts ∧
      acts.length ≤ 1 ∧ ∀ a ∈ acts, a.PhoneNumber ≠ q) ∧
    (∃ msgs : List Message, (c.run env w).published = w.published ++ msgs ∧
      msgs.length ≤ 1 ∧ ∀ m ∈ msgs, ¬ namesPhone m q) := by
  have hs := (run_shape env c w).other hq
  have ht := run_trail env c w
  refine ⟨hs.1, hs.2, ?_, ?_⟩
  · rcases ht.1 with ha | ⟨a, hap, ha⟩
    · exact ⟨[], by simp [ha], by simp, by simp⟩
    · refine ⟨[a], ha, by simp, ?_⟩
      intro b hb
      have : b = a := by simpa using hb
      rw [this, hap]
      exact fun h => hq h.symm
  · rcases ht.2 with hp | ⟨code, hp⟩
    · exact ⟨[], by simp [hp], by simp, by simp⟩
    · refine ⟨[⟨"verification", eventBody c.phone code⟩], hp, by simp, ?_⟩
      intro m hm
      have : m = ⟨"verification", eventBody c.phone code⟩ := by simpa using hm
      rintro ⟨e, he, hep⟩
      rw [this] at he
      simp only [deserialize_eventBody] at he
      have he' : (⟨c.phone, code⟩ : OTPVerificationEvent) = e := by injection he
      rw [← he'] at hep
      exact hq hep.symm

theorem other_phone_untouched_witness :
    usersOf (Call.run (calmEnv 5) (.loginInitiate "+15551234") twoPhonesWorld) "+15550000" =
      usersOf twoPhonesWorld "+15550000" ∧
    otpsOf (Call.run (calmEnv 5) (.loginInitiate "+15551234") twoPhonesWorld) "+15550000" =
      otpsOf twoPhonesWorld "+15550000" ∧
    (∃ acts : List Activity,
      (Call.run (calmEnv 5) (.loginInitiate "+15551234") twoPhonesWorld).activities =
        twoPhonesWorld.activities ++ acts ∧
      acts.length ≤ 1 ∧ ∀ a ∈ acts, a.PhoneNumber ≠ "+15550000") ∧
    (∃ msgs : List Message,
      (Call.run (calmEnv 5) (.loginInitiate "+15551234") twoPhonesWorld).published =
        twoPhonesWorld.published ++ msgs ∧
      msgs.length ≤ 1 ∧ ∀ m ∈ msgs, ¬ namesPhone m "+15550000") :=
  other_phone_untouched (calmEnv 5) (.loginInitiate "+15551234") twoPhonesWorld "+15550000"
    (by decide)

end AuthOtp
